import Mathlib

/-!
Shallow embedding of `normalizar_datos.py` (supplement-regulation
normalization pipeline) and proofs about its specification claims.

Strings are modelled as Lean `String`, with all character processing done on
`List Char` (the `data` field).  Python floats are modelled as `ℚ`; the code
only ever parses decimal numerals, so every value it produces is an exact
decimal rational.  Python `None` is `Option.none`; try/except around `float`
is modelled by an `Option`-returning numeral parser.
-/

set_option maxRecDepth 100000

namespace Suplementos

abbrev Chars := List Char

/-- Whitespace, as matched by Python `str.strip` and the regex class for the
inputs that occur (ASCII whitespace). -/
def esWS (c : Char) : Bool := c = ' ' || c = '\t' || c = '\n' || c = '\r'

/-- Left strip. -/
def stripL (cs : Chars) : Chars := cs.dropWhile esWS

/-- Right strip. -/
def stripR (cs : Chars) : Chars := (cs.reverse.dropWhile esWS).reverse

/-- Python `str.strip()`. -/
def pyStrip (cs : Chars) : Chars := stripR (stripL cs)

/-- ASCII lower-casing of one character (Python `str.lower` restricted to the
ASCII letters, which are the only cased characters compared by the code). -/
def minuscula (c : Char) : Char :=
  if 65 ≤ c.toNat ∧ c.toNat ≤ 90 then Char.ofNat (c.toNat + 32) else c

/-- Python `str.lower()`. -/
def pyLower (cs : Chars) : Chars := cs.map minuscula

/-- Python `pat in s` (substring containment). -/
def esSub (pat : Chars) : Chars → Bool
  | [] => pat.isEmpty
  | c :: t => pat.isPrefixOf (c :: t) || esSub pat t

/-- First occurrence of the nonempty pattern `p :: ps`: returns the part
before the match and the part after it. -/
def buscaSub (p : Char) (ps : Chars) : Chars → Option (Chars × Chars)
  | [] => none
  | c :: t =>
    if (p :: ps).isPrefixOf (c :: t) then some ([], (c :: t).drop (ps.length + 1))
    else (buscaSub p ps t).map (fun q => (c :: q.1, q.2))

theorem buscaSub_eq_some {p : Char} {ps cs a b : Chars}
    (h : buscaSub p ps cs = some (a, b)) : cs = a ++ (p :: ps) ++ b := by
  induction cs generalizing a with
  | nil => simp [buscaSub] at h
  | cons c t ih =>
    simp only [buscaSub] at h
    by_cases hp : (p :: ps).isPrefixOf (c :: t)
    · rw [if_pos hp] at h
      obtain ⟨ha, hb⟩ := Prod.mk.injEq .. ▸ (Option.some.injEq .. ▸ h)
      obtain ⟨u, hu⟩ := List.isPrefixOf_iff_prefix.mp hp
      subst ha
      rw [← hb, ← hu]
      have hd : ((p :: ps) ++ u).drop (ps.length + 1) = u := by
        have : (p :: ps).length = ps.length + 1 := by simp
        rw [← this, List.drop_left]
      rw [hd]
      simp
    · rw [if_neg hp] at h
      cases hq : buscaSub p ps t with
      | none => rw [hq] at h; exact absurd h (by simp)
      | some q =>
        rw [hq] at h
        obtain ⟨a', b'⟩ := q
        simp only [Option.map_some', Option.some.injEq, Prod.mk.injEq] at h
        obtain ⟨ha, hb⟩ := h
        subst hb
        rw [← ha]
        simpa using ih hq

theorem buscaSub_length {p : Char} {ps cs a b : Chars}
    (h : buscaSub p ps cs = some (a, b)) : b.length < cs.length := by
  have := buscaSub_eq_some h
  subst this
  simp
  omega

theorem buscaSub_nil (p : Char) (ps : Chars) : buscaSub p ps [] = none := rfl

/-- Fuelled splitter (fuel bounds the number of separator occurrences). -/
def divideSubF (p : Char) (ps : Chars) : Nat → Chars → List Chars
  | 0, cs => [cs]
  | fuel + 1, cs =>
    match buscaSub p ps cs with
    | none => [cs]
    | some (a, b) => a :: divideSubF p ps fuel b

/-- Python `s.split(sep)` for a nonempty separator `p :: ps`. -/
def divideSub (p : Char) (ps : Chars) (cs : Chars) : List Chars :=
  divideSubF p ps cs.length cs

theorem divideSubF_congr (p : Char) (ps : Chars) :
    ∀ f₁ : Nat, ∀ f₂ : Nat, ∀ cs : Chars, cs.length ≤ f₁ → cs.length ≤ f₂ →
      divideSubF p ps f₁ cs = divideSubF p ps f₂ cs := by
  intro f₁
  induction f₁ with
  | zero =>
    intro f₂ cs h₁ _
    have : cs = [] := List.length_eq_zero.mp (Nat.le_zero.mp h₁)
    subst this
    cases f₂ <;> simp [divideSubF, buscaSub_nil]
  | succ f ih =>
    intro f₂ cs h₁ h₂
    cases f₂ with
    | zero =>
      have : cs = [] := List.length_eq_zero.mp (Nat.le_zero.mp h₂)
      subst this
      simp [divideSubF, buscaSub_nil]
    | succ f' =>
      simp only [divideSubF]
      cases hb : buscaSub p ps cs with
      | none => rfl
      | some q =>
        obtain ⟨a, b⟩ := q
        have hlt := buscaSub_length hb
        dsimp only
        rw [ih f' b (by omega) (by omega)]

/-- The recursion equation of `divideSub`. -/
theorem divideSub_eq (p : Char) (ps : Chars) (cs : Chars) :
    divideSub p ps cs =
      match buscaSub p ps cs with
      | none => [cs]
      | some (a, b) => a :: divideSub p ps b := by
  unfold divideSub
  cases hl : cs.length with
  | zero =>
    have : cs = [] := List.length_eq_zero.mp hl
    subst this
    simp [divideSubF, buscaSub_nil]
  | succ n =>
    simp only [divideSubF]
    cases hb : buscaSub p ps cs with
    | none => rfl
    | some q =>
      obtain ⟨a, b⟩ := q
      have hlt := buscaSub_length hb
      dsimp only
      rw [divideSubF_congr p ps n b.length b (by omega) (by omega)]

/-- Fuelled replacer. -/
def reemplazaF (p : Char) (ps rep : Chars) : Nat → Chars → Chars
  | 0, cs => cs
  | fuel + 1, cs =>
    match buscaSub p ps cs with
    | none => cs
    | some (a, b) => a ++ rep ++ reemplazaF p ps rep fuel b

/-- Python `s.replace(pat, rep)` for a nonempty pattern `p :: ps`
(left-to-right, non-overlapping, replacement not rescanned). -/
def reemplaza (p : Char) (ps rep : Chars) (cs : Chars) : Chars :=
  reemplazaF p ps rep cs.length cs

theorem reemplazaF_congr (p : Char) (ps rep : Chars) :
    ∀ f₁ : Nat, ∀ f₂ : Nat, ∀ cs : Chars, cs.length ≤ f₁ → cs.length ≤ f₂ →
      reemplazaF p ps rep f₁ cs = reemplazaF p ps rep f₂ cs := by
  intro f₁
  induction f₁ with
  | zero =>
    intro f₂ cs h₁ _
    have : cs = [] := List.length_eq_zero.mp (Nat.le_zero.mp h₁)
    subst this
    cases f₂ <;> simp [reemplazaF, buscaSub_nil]
  | succ f ih =>
    intro f₂ cs h₁ h₂
    cases f₂ with
    | zero =>
      have : cs = [] := List.length_eq_zero.mp (Nat.le_zero.mp h₂)
      subst this
      simp [reemplazaF, buscaSub_nil]
    | succ f' =>
      simp only [reemplazaF]
      cases hb : buscaSub p ps cs with
      | none => rfl
      | some q =>
        obtain ⟨a, b⟩ := q
        have hlt := buscaSub_length hb
        dsimp only
        rw [ih f' b (by omega) (by omega)]

/-- The recursion equation of `reemplaza`. -/
theorem reemplaza_eq (p : Char) (ps rep : Chars) (cs : Chars) :
    reemplaza p ps rep cs =
      match buscaSub p ps cs with
      | none => cs
      | some (a, b) => a ++ rep ++ reemplaza p ps rep b := by
  unfold reemplaza
  cases hl : cs.length with
  | zero =>
    have : cs = [] := List.length_eq_zero.mp hl
    subst this
    simp [reemplazaF, buscaSub_nil]
  | succ n =>
    simp only [reemplazaF]
    cases hb : buscaSub p ps cs with
    | none => rfl
    | some q =>
      obtain ⟨a, b⟩ := q
      have hlt := buscaSub_length hb
      dsimp only
      rw [reemplazaF_congr p ps rep n b.length b (by omega) (by omega)]

/-- Decimal digit test (`0`-`9`), by code point. -/
def esDig (c : Char) : Bool := 48 ≤ c.toNat && c.toNat ≤ 57

/-- Numeric value of a digit string (most significant first). -/
def valNat (cs : Chars) : Nat := cs.foldl (fun a c => 10 * a + (c.toNat - 48)) 0

/-- Exponent part of a Python float literal: optional sign then digits,
returning the signed exponent value. -/
def pyExp (cs : Chars) : Option ℤ :=
  match cs with
  | [] => none
  | c :: t =>
    let sd : ℤ × Chars :=
      if c = '-' then (-1, t) else if c = '+' then (1, t) else (1, c :: t)
    if sd.2 ≠ [] ∧ sd.2.all esDig then some (sd.1 * (valNat sd.2 : ℤ))
    else none

/-- The exact value of a decimal literal with sign `sgn`, integer digits `d1`,
fraction digits `d2` and exponent `e`
(`sgn * d1.d2 * 10 ^ e`), built with `mkRat` so that it computes by
kernel reduction. -/
def valDecimal (sgn : ℤ) (d1 d2 : Chars) (e : ℤ) : ℚ :=
  let m : ℤ := sgn * ((valNat d1 : ℤ) * 10 ^ d2.length + (valNat d2 : ℤ))
  if 0 ≤ e then mkRat (m * 10 ^ e.toNat) (10 ^ d2.length)
  else mkRat m (10 ^ d2.length * 10 ^ (-e).toNat)

/-- Unsigned mantissa (with optional fraction and exponent) of a Python float
literal, with sign `sgn`. -/
def pyFloatMag (cs : Chars) (sgn : ℤ) : Option ℚ :=
  let d1 := cs.takeWhile esDig
  let r1 := cs.dropWhile esDig
  match r1 with
  | [] => if d1 = [] then none else some (valDecimal sgn d1 [] 0)
  | c :: t =>
    if c = '.' then
      let d2 := t.takeWhile esDig
      let r2 := t.dropWhile esDig
      if d1 = [] ∧ d2 = [] then none
      else
        match r2 with
        | [] => some (valDecimal sgn d1 d2 0)
        | e :: et =>
          if e = 'e' ∨ e = 'E' then (pyExp et).map (fun x => valDecimal sgn d1 d2 x)
          else none
    else if (c = 'e' ∨ c = 'E') ∧ d1 ≠ [] then
      (pyExp t).map (fun x => valDecimal sgn d1 [] x)
    else none

/-- Python `float(s)`, returning `none` where Python raises `ValueError`
(the try/except in the code maps that to `None`).  Covers the decimal literal
forms; `inf`/`nan`/underscores never occur in this pipeline. -/
def pyFloat (cs0 : Chars) : Option ℚ :=
  match pyStrip cs0 with
  | [] => none
  | c :: t =>
    if c = '-' then pyFloatMag t (-1)
    else if c = '+' then pyFloatMag t 1
    else pyFloatMag (c :: t) 1

/-! ## `extraer_referencias`

The regex `\[([^\]]+)\]` (findall) together with `re.sub(r'\s*\[[^\]]+\]', '')`
is modelled by a single left-to-right scanner: at each position, try to match
an optional whitespace run, a `[`, a nonempty `]`-free body, and a `]`; on a
match drop the whole span and record the body, otherwise keep one character. -/

/-- Match `[body]` at the head of the input (which starts just after `[`):
`body` is the maximal `]`-free run; it must be nonempty and terminated. -/
def tomaGrupo (t : Chars) : Option (Chars × Chars) :=
  let mid := t.takeWhile (fun c => !(c = ']'))
  let rest := t.dropWhile (fun c => !(c = ']'))
  if mid = [] ∨ rest = [] then none else some (mid, rest.tail)

/-- Match `\s*\[[^\]]+\]` at the current position. -/
def coincideEn (cs : Chars) : Option (Chars × Chars) :=
  match cs.dropWhile esWS with
  | '[' :: t => tomaGrupo t
  | _ => none

theorem tomaGrupo_eq_some {t m r : Chars} (h : tomaGrupo t = some (m, r)) :
    t = m ++ ']' :: r ∧ r.length + m.length + 1 = t.length := by
  unfold tomaGrupo at h
  by_cases hc : t.takeWhile (fun c => !(c = ']')) = [] ∨ t.dropWhile (fun c => !(c = ']')) = []
  · rw [if_pos hc] at h; exact absurd h (by simp)
  · rw [if_neg hc] at h
    push_neg at hc
    simp only [Option.some.injEq, Prod.mk.injEq] at h
    obtain ⟨hm, hr⟩ := h
    have hsplit := List.takeWhile_append_dropWhile (p := fun c => !(c = ']')) (l := t)
    cases hd : t.dropWhile (fun c => !(c = ']')) with
    | nil => exact absurd hd hc.2
    | cons d ds =>
      have hdhead : !(d = ']') = false := by
        have := List.head_dropWhile_not (p := fun c => !(c = ']')) t (by rw [hd]; simp)
        simpa [hd] using this
      have hd' : d = ']' := by simpa using hdhead
      subst hd'
      constructor
      · rw [← hsplit, hd, hm, ← hr, hd]; rfl
      · rw [← hsplit, hd, hm, ← hr, hd]; simp; omega

theorem coincideEn_length {cs m r : Chars} (h : coincideEn cs = some (m, r)) :
    r.length < cs.length := by
  unfold coincideEn at h
  cases hd : cs.dropWhile esWS with
  | nil => rw [hd] at h; exact absurd h (by simp)
  | cons c t =>
    rw [hd] at h
    by_cases hc : c = '['
    · subst hc
      have := (tomaGrupo_eq_some h).2
      have hlen : t.length + 1 = (cs.dropWhile esWS).length := by rw [hd]; rfl
      have : (cs.dropWhile esWS).length ≤ cs.length :=
        (List.dropWhile_sublist esWS).length_le
      omega
    · cases c <;> simp_all

/-- Fuelled reference scanner. -/
def escaneaRefsF : Nat → Chars → Chars × List Chars
  | 0, cs => (cs, [])
  | fuel + 1, cs =>
    match coincideEn cs with
    | some (m, r) =>
      let p := escaneaRefsF fuel r
      (p.1, m :: p.2)
    | none =>
      match cs with
      | [] => ([], [])
      | c :: t =>
        let p := escaneaRefsF fuel t
        (c :: p.1, p.2)

/-- The scanner behind both `re.findall(r'\[([^\]]+)\]')` and
`re.sub(r'\s*\[[^\]]+\]', '')`: returns the residual string and the list of
bracket-group bodies, in order of appearance. -/
def escaneaRefs (cs : Chars) : Chars × List Chars :=
  escaneaRefsF cs.length cs

theorem coincideEn_nil : coincideEn [] = none := rfl

theorem escaneaRefsF_congr :
    ∀ f₁ : Nat, ∀ f₂ : Nat, ∀ cs : Chars, cs.length ≤ f₁ → cs.length ≤ f₂ →
      escaneaRefsF f₁ cs = escaneaRefsF f₂ cs := by
  intro f₁
  induction f₁ with
  | zero =>
    intro f₂ cs h₁ _
    have : cs = [] := List.length_eq_zero.mp (Nat.le_zero.mp h₁)
    subst this
    cases f₂ <;> simp [escaneaRefsF, coincideEn_nil]
  | succ f ih =>
    intro f₂ cs h₁ h₂
    cases f₂ with
    | zero =>
      have : cs = [] := List.length_eq_zero.mp (Nat.le_zero.mp h₂)
      subst this
      simp [escaneaRefsF, coincideEn_nil]
    | succ f' =>
      simp only [escaneaRefsF]
      cases hb : coincideEn cs with
      | some q =>
        obtain ⟨m, r⟩ := q
        have hlt := coincideEn_length hb
        dsimp only
        rw [ih f' r (by omega) (by omega)]
      | none =>
        cases cs with
        | nil => rfl
        | cons c t =>
          dsimp only
          rw [ih f' t (by simp at h₁; omega) (by simp at h₂; omega)]

/-- The recursion equation of `escaneaRefs`. -/
theorem escaneaRefs_eq (cs : Chars) :
    escaneaRefs cs =
      match coincideEn cs with
      | some (m, r) => ((escaneaRefs r).1, m :: (escaneaRefs r).2)
      | none =>
        match cs with
        | [] => ([], [])
        | c :: t => (c :: (escaneaRefs t).1, (escaneaRefs t).2) := by
  unfold escaneaRefs
  cases hl : cs.length with
  | zero =>
    have : cs = [] := List.length_eq_zero.mp hl
    subst this
    simp [escaneaRefsF, coincideEn_nil]
  | succ n =>
    simp only [escaneaRefsF]
    cases hb : coincideEn cs with
    | some q =>
      obtain ⟨m, r⟩ := q
      have hlt := coincideEn_length hb
      dsimp only
      rw [escaneaRefsF_congr n r.length r (by omega) (by omega)]
    | none =>
      cases cs with
      | nil => simp at hl
      | cons c t =>
        have : t.length = n := by simpa using hl
        dsimp only
        rw [escaneaRefsF_congr n t.length t (by omega) (by omega)]

/-- The non-empty case of `extraer_referencias`: strip, pull out every `[...]`
group (splitting each body on commas, stripping each piece), and return the
group-free residual (stripped) together with the markers. -/
def extraeCore (cs : Chars) : String × List String :=
  let p := escaneaRefs (pyStrip cs)
  (⟨pyStrip p.1⟩,
   (p.2.map (fun g => (divideSub ',' [] g).map (fun x => (⟨pyStrip x⟩ : String)))).flatten)

/-- `extraer_referencias`. -/
def extraer_referencias (valor : String) : String × List String :=
  if valor = "" then (valor, []) else extraeCore valor.data

theorem extraer_referencias_ne {valor : String} (h : valor ≠ "") :
    extraer_referencias valor = extraeCore valor.data := by
  unfold extraer_referencias
  rw [if_neg h]

/-! ## `parsear_rango` -/

/-- The fixed table of Excel-date misreadings, in the insertion order of the
Python dict. -/
def casos_especiales : List (Chars × Chars) :=
  [("may-15".data, "5 - 15".data),
   ("may-25".data, "5 - 25".data),
   ("ene-50".data, "1 - 50".data),
   ("feb-20".data, "2 - 20".data),
   ("feb-60".data, "2 - 60".data),
   ("abr-35".data, "4 - 35".data),
   ("dic-00".data, "12 - 0".data),
   ("1-dic".data, "1 - 12".data),
   ("mar-40".data, "3 - 40".data)]

/-- One step of the Excel-date correction loop:
`if caso in valor.lower(): valor = valor.lower().replace(caso, reemplazo)`. -/
def aplicaCaso (v : Chars) (cr : Chars × Chars) : Chars :=
  if esSub cr.1 (pyLower v) then
    match cr.1 with
    | [] => v
    | p :: ps => reemplaza p ps cr.2 (pyLower v)
  else v

/-- The full Excel-date correction pass, in table order. -/
def aplicaCasos (v : Chars) : Chars := casos_especiales.foldl aplicaCaso v

/-- The padded separator `" - "`. -/
def sepPad : Chars := " - ".data

/-- The sentinel fragment `"no establecido"`. -/
def noEstab : Chars := "no establecido".data

/-- The split step: prefer `" - "`; otherwise, if a bare `-` occurs and the
string is not an unregulated-sentinel variant, split on `-`; else no parts. -/
def partesDe (v : Chars) : Option (List Chars) :=
  if esSub sepPad v then some (divideSub ' ' ['-', ' '] v)
  else if esSub ['-'] v ∧ ¬ esSub noEstab (pyLower v) then some (divideSub '-' [] v)
  else none

/-- Per-side processing: strip; sentinel text or empty side is `None`;
otherwise decimal comma to point, then `float` with failure as `None`. -/
def procesaLado (s : Chars) : Option ℚ :=
  let s := pyStrip s
  if esSub noEstab (pyLower s) ∨ s = [] then none
  else pyFloat (reemplaza ',' [] ['.'] s)

/-- The two-sided case, including the one-sided-null fallback that copies the
known bound into both fields. -/
def dosLados (mn mx : Chars) : Option ℚ × Option ℚ :=
  match procesaLado mn, procesaLado mx with
  | none, some q => (some q, some q)
  | some q, none => (some q, some q)
  | a, b => (a, b)

/-- The single-value case. -/
def valorUnico (v : Chars) : Option ℚ × Option ℚ :=
  if esSub "none".data (pyLower v) ∨ esSub noEstab (pyLower v) then (none, none)
  else
    match pyFloat (reemplaza ',' [] ['.'] v) with
    | some q => (some q, some q)
    | none => (none, none)

/-- Everything after the early-return and Excel-date corrections: split, then
either the two-sided or the single-value path. -/
def trasCasos (v : Chars) : Option ℚ × Option ℚ :=
  match partesDe v with
  | some [mn, mx] => dosLados mn mx
  | _ => valorUnico v

/-- `parsear_rango`. -/
def parsear_rango (valor : String) : Option ℚ × Option ℚ :=
  if valor = "" ∨ valor = "No establecidos" ∨ valor = "No establecido" then (none, none)
  else trasCasos (aplicaCasos (pyStrip valor.data))

/-! ## `parsear_guatemala` -/

/-- One decomposed Guatemala category entry. -/
structure CategoriaGuatemala where
  categoria : String
  minimo : Option ℚ
  maximo : Option ℚ
  deriving DecidableEq, Repr

/-- The tag table `{'AL': ..., 'PF': ..., 'UL': ...}.get(tipo, tipo)`. -/
def tipoCompleto (tipo : String) : String :=
  if tipo = "AL" then "Suplementos Alimenticios"
  else if tipo = "PF" then "Productos Farmacéuticos"
  else if tipo = "UL" then "Límite Superior"
  else tipo

/-- Processing of one `/`-separated segment: only colon-bearing segments
produce an entry; the tag is taken before the first colon. -/
def segmentoGuatemala (parte : Chars) : List CategoriaGuatemala :=
  let p := pyStrip parte
  match buscaSub ':' [] p with
  | some (tipo, rango) =>
    let r := parsear_rango ⟨pyStrip rango⟩
    [⟨tipoCompleto ⟨pyStrip tipo⟩, r.1, r.2⟩]
  | none => []

/-- `parsear_guatemala`. -/
def parsear_guatemala (valor : String) : List CategoriaGuatemala :=
  if esSub "No establecidos".data valor.data then []
  else ((divideSub '/' [] (pyStrip valor.data)).map segmentoGuatemala).flatten

/-! ## Normalization driver -/

/-- `re.search(r'\((.*?)\)', s)`: the content of the first parenthesized
group — the first `(` that has some `)` after it, with the lazy body running
to the nearest `)`. -/
def buscaParen : Chars → Option Chars
  | [] => none
  | c :: t =>
    if c = '(' then
      if t.any (fun d => d = ')') then some (t.takeWhile (fun d => !(d = ')')))
      else buscaParen t
    else buscaParen t

/-- The lazy body of `\(.*?\)` starting just after `(`: defined when some `)`
follows; the body (possibly empty) runs to the nearest `)`. -/
def tomaParen (t : Chars) : Option Chars :=
  if t.any (fun d => d = ')') then some ((t.dropWhile (fun d => !(d = ')'))).tail)
  else none

/-- Match `\s*\(.*?\)` at the current position (body may be empty). -/
def coincideParen (cs : Chars) : Option Chars :=
  match cs.dropWhile esWS with
  | '(' :: t => tomaParen t
  | _ => none

theorem tomaParen_length {t r : Chars} (h : tomaParen t = some r) :
    r.length ≤ t.length := by
  unfold tomaParen at h
  split at h
  · injection h with h
    subst h
    have h2 := (List.dropWhile_sublist (l := t) (fun d => !(d = ')'))).length_le
    have h3 := List.length_tail (t.dropWhile (fun d => !(d = ')')))
    omega
  · exact absurd h (by simp)

theorem coincideParen_length {cs r : Chars} (h : coincideParen cs = some r) :
    r.length < cs.length := by
  unfold coincideParen at h
  cases hd : cs.dropWhile esWS with
  | nil => rw [hd] at h; exact absurd h (by simp)
  | cons c t =>
    rw [hd] at h
    have hlen : t.length + 1 = (cs.dropWhile esWS).length := by rw [hd]; rfl
    have hle : (cs.dropWhile esWS).length ≤ cs.length :=
      (List.dropWhile_sublist esWS).length_le
    by_cases hc : c = '('
    · subst hc
      have h' : tomaParen t = some r := h
      have := tomaParen_length h'
      omega
    · cases c <;> simp_all

/-- Fuelled paren scanner. -/
def escaneaParensF : Nat → Chars → Chars
  | 0, cs => cs
  | fuel + 1, cs =>
    match coincideParen cs with
    | some r => escaneaParensF fuel r
    | none =>
      match cs with
      | [] => []
      | c :: t => c :: escaneaParensF fuel t

/-- The scanner behind `re.sub(r'\s*\(.*?\)', '', s)`. -/
def escaneaParens (cs : Chars) : Chars :=
  escaneaParensF cs.length cs

theorem coincideParen_nil : coincideParen [] = none := rfl

theorem escaneaParensF_congr :
    ∀ f₁ : Nat, ∀ f₂ : Nat, ∀ cs : Chars, cs.length ≤ f₁ → cs.length ≤ f₂ →
      escaneaParensF f₁ cs = escaneaParensF f₂ cs := by
  intro f₁
  induction f₁ with
  | zero =>
    intro f₂ cs h₁ _
    have : cs = [] := List.length_eq_zero.mp (Nat.le_zero.mp h₁)
    subst this
    cases f₂ <;> simp [escaneaParensF, coincideParen_nil]
  | succ f ih =>
    intro f₂ cs h₁ h₂
    cases f₂ with
    | zero =>
      have : cs = [] := List.length_eq_zero.mp (Nat.le_zero.mp h₂)
      subst this
      simp [escaneaParensF, coincideParen_nil]
    | succ f' =>
      simp only [escaneaParensF]
      cases hb : coincideParen cs with
      | some r =>
        have hlt := coincideParen_length hb
        dsimp only
        rw [ih f' r (by omega) (by omega)]
      | none =>
        cases cs with
        | nil => rfl
        | cons c t =>
          dsimp only
          rw [ih f' t (by simp at h₁; omega) (by simp at h₂; omega)]

/-- `unidad`: the parenthesized suffix of the ingredient label, with default
`"unidad"`. -/
def unidadDe (s : String) : String :=
  match buscaParen s.data with
  | some u => ⟨u⟩
  | none => "unidad"

/-- `nombre_limpio`: the label with every `\s*\(...\)` group removed, then
stripped. -/
def nombreLimpio (s : String) : String := ⟨pyStrip (escaneaParens s.data)⟩

/-- One output record of the normalization (one row of the DataFrame). -/
structure Registro where
  pais : String
  ingrediente : String
  tipo : String
  unidad : String
  minimo : Option ℚ
  maximo : Option ℚ
  establecido : Bool
  categoria_regulacion : String
  referencias : Option String
  valor_original : String
  deriving DecidableEq, Repr

/-- `','.join(referencias) if referencias else None`. -/
def uneReferencias (refs : List String) : Option String :=
  if refs.isEmpty then none else some (String.intercalate "," refs)

/-- The Guatemala composite-branch test of the vitamin loop:
`pais == 'Guatemala' and ('AL:' in v or 'PF:' in v or 'UL:' in v)`
applied to the reference-free value. -/
def condCompuesta (pais valor_limpio : String) : Bool :=
  pais == "Guatemala" &&
    (esSub "AL:".data valor_limpio.data || esSub "PF:".data valor_limpio.data ||
     esSub "UL:".data valor_limpio.data)

/-- The vitamin-loop body: one record per Guatemala category on the composite
branch, else exactly one `Estándar` record. -/
def procesarVitamina (pais : String) (ent : String × String) : List Registro :=
  let unidad := unidadDe ent.1
  let nombre := nombreLimpio ent.1
  let er := extraer_referencias ent.2
  if condCompuesta pais er.1 then
    (parsear_guatemala er.1).map (fun cat =>
      { pais := pais, ingrediente := nombre, tipo := "Vitamina", unidad := unidad,
        minimo := cat.minimo, maximo := cat.maximo,
        establecido := cat.minimo.isSome || cat.maximo.isSome,
        categoria_regulacion := cat.categoria,
        referencias := uneReferencias er.2, valor_original := ent.2 })
  else
    let r := parsear_rango er.1
    [{ pais := pais, ingrediente := nombre, tipo := "Vitamina", unidad := unidad,
       minimo := r.1, maximo := r.2,
       establecido := r.1.isSome || r.2.isSome,
       categoria_regulacion := "Estándar",
       referencias := uneReferencias er.2, valor_original := ent.2 }]

/-- The mineral-loop body: always exactly one `Estándar` record, the raw value
going to the range parser as a single string. -/
def procesarMineral (pais : String) (ent : String × String) : List Registro :=
  let unidad := unidadDe ent.1
  let nombre := nombreLimpio ent.1
  let er := extraer_referencias ent.2
  let r := parsear_rango er.1
  [{ pais := pais, ingrediente := nombre, tipo := "Mineral", unidad := unidad,
     minimo := r.1, maximo := r.2,
     establecido := r.1.isSome || r.2.isSome,
     categoria_regulacion := "Estándar",
     referencias := uneReferencias er.2, valor_original := ent.2 }]

/-- Source table block: vitaminas for Argentina. -/
def vitaminas_Argentina : List (String × String) :=
  [("Vitamina A / Retinol (µg)", "180 - 3000 [1]"),
   ("Ácido Fólico (µg)", "72 - 1000 [2]"),
   ("Beta Caroteno (mg)", "1,08 - 17,96 [3]"),
   ("Biotina (µg)", "9 - 2500 [4]"),
   ("Vit B1 / Tiamina (mg)", "0,36 - 100 [5]"),
   ("Vit B2 / Riboflavina (mg)", "0,39 - 200 [6]"),
   ("Vit B3 / Niacina (mg)", "4,8 - 500 [7]"),
   ("Vit B5 / Ac. Pantoténico (mg)", "1,5 - 1000 [8]"),
   ("Vit B6 / Piridoxina (mg)", "0,39 - 100 [9]"),
   ("Vit B12 / Cianocobalamina (µg)", "0,72 - 3000 [10]"),
   ("Vit C / Ac. Ascórbico (mg)", "13,5 - 2000 [11]"),
   ("Vitamina D (µg)", "1,5 - 100 [12]"),
   ("Vitamina E /d-tocoferol (mg)", "3 - 1000 [13]"),
   ("Vitamina K (µg)", "19,5 - 10000 [14]"),
   ("Colina (mg)", "No establecidos")]

/-- Source table block: vitaminas for Brasil. -/
def vitaminas_Brasil : List (String × String) :=
  [("Vitamina A / Retinol (µg)", "135 - 2623,61 [15]"),
   ("Ácido Fólico (µg)", "60 - 1281,5 [16]"),
   ("Beta Caroteno (mg)", "0,8 - 12,12 [17]"),
   ("Biotina (µg)", "4,5 - 5,64 [18]"),
   ("Vit B1 / Tiamina (mg)", "0,18 - 2,02 [19]"),
   ("Vit B2 / Riboflavina (mg)", "0,2 - 2,74 [20]"),
   ("Vit B3 / Niacina (mg)", "2,4 - 35 [21]"),
   ("Vit B5 / Ac. Pantoténico (mg)", "0,75 - 5,64 [22]"),
   ("Vit B6 / Piridoxina (mg)", "0,26 - 98,60 [23]"),
   ("Vit B12 / Cianocobalamina (µg)", "0,36 - 9,64 [24]"),
   ("Vit C / Ac. Ascórbico (mg)", "13,5 - 1916,02 [25]"),
   ("Vitamina D (µg)", "3 - 50 [26]"),
   ("Vitamina E /d-tocoferol (mg)", "2,25 - 1000 [27]"),
   ("Vitamina K (µg)", "0,18 - 149,06 [28]"),
   ("Colina (mg)", "82,5 - 3235,15")]

/-- Source table block: vitaminas for Chile. -/
def vitaminas_Chile : List (String × String) :=
  [("Vitamina A / Retinol (µg)", "200 - 1000"),
   ("Ácido Fólico (µg)", "100 - 500"),
   ("Beta Caroteno (mg)", "may-15"),
   ("Biotina (µg)", "30 - 150"),
   ("Vit B1 / Tiamina (mg)", "0,7 - 6"),
   ("Vit B2 / Riboflavina (mg)", "0,8 - 6"),
   ("Vit B3 / Niacina (mg)", "4,5 - 20"),
   ("Vit B5 / Ac. Pantoténico (mg)", "may-25"),
   ("Vit B6 / Piridoxina (mg)", "ene-50"),
   ("Vit B12 / Cianocobalamina (µg)", "1-dic"),
   ("Vit C / Ac. Ascórbico (mg)", "60 - 1000"),
   ("Vitamina D (µg)", "feb-20"),
   ("Vitamina E /d-tocoferol (mg)", "20 - 500"),
   ("Vitamina K (µg)", "80 - 600"),
   ("Colina (mg)", "275 - 2000")]

/-- Source table block: vitaminas for Colombia. -/
def vitaminas_Colombia : List (String × String) :=
  [("Vitamina A / Retinol (µg)", "No establecido - 3000 [29]"),
   ("Ácido Fólico (µg)", "No establecido - 1000"),
   ("Beta Caroteno (mg)", "No establecido - 72"),
   ("Biotina (µg)", "No establecido - 900"),
   ("Vit B1 / Tiamina (mg)", "No establecido - 100 [30]"),
   ("Vit B2 / Riboflavina (mg)", "No establecido - 40"),
   ("Vit B3 / Niacina (mg)", "No establecido - 35"),
   ("Vit B5 / Ac. Pantoténico (mg)", "No establecido - 200"),
   ("Vit B6 / Piridoxina (mg)", "No establecido - 100"),
   ("Vit B12 / Cianocobalamina (µg)", "No establecido - 2000 [31]"),
   ("Vit C / Ac. Ascórbico (mg)", "No establecido - 1000"),
   ("Vitamina D (µg)", "No establecido - 50"),
   ("Vitamina E /d-tocoferol (mg)", "No establecido - 1000"),
   ("Vitamina K (µg)", "No establecido - 1000 [32]"),
   ("Colina (mg)", "No establecidos")]

/-- Source table block: vitaminas for Costa Rica. -/
def vitaminas_CostaRica : List (String × String) :=
  [("Vitamina A / Retinol (µg)", "300 - 3000"),
   ("Ácido Fólico (µg)", "80 - 1000"),
   ("Beta Caroteno (mg)", "No establecido - 25"),
   ("Biotina (µg)", "60 - No establecido"),
   ("Vit B1 / Tiamina (mg)", "0,3 - No establecido"),
   ("Vit B2 / Riboflavina (mg)", "0,34 - No establecido"),
   ("Vit B3 / Niacina (mg)", "abr-35"),
   ("Vit B5 / Ac. Pantoténico (mg)", "2 - No establecido"),
   ("Vit B6 / Piridoxina (mg)", "0,4 - 100"),
   ("Vit B12 / Cianocobalamina (µg)", "1,2 - No establecido"),
   ("Vit C / Ac. Ascórbico (mg)", "dic-00"),
   ("Vitamina D (µg)", "feb-60"),
   ("Vitamina E /d-tocoferol (mg)", "4 - 1000"),
   ("Vitamina K (µg)", "16 - No establecido"),
   ("Colina (mg)", "None")]

/-- Source table block: vitaminas for República Dominicana. -/
def vitaminas_RepublicaDominicana : List (String × String) :=
  [("Vitamina A / Retinol (µg)", "No establecido"),
   ("Ácido Fólico (µg)", "No establecido"),
   ("Beta Caroteno (mg)", "No establecido"),
   ("Biotina (µg)", "No establecido"),
   ("Vit B1 / Tiamina (mg)", "No establecido"),
   ("Vit B2 / Riboflavina (mg)", "No establecido"),
   ("Vit B3 / Niacina (mg)", "No establecido"),
   ("Vit B5 / Ac. Pantoténico (mg)", "No establecido"),
   ("Vit B6 / Piridoxina (mg)", "No establecido"),
   ("Vit B12 / Cianocobalamina (µg)", "No establecido"),
   ("Vit C / Ac. Ascórbico (mg)", "No establecido"),
   ("Vitamina D (µg)", "No establecido"),
   ("Vitamina E /d-tocoferol (mg)", "No establecido"),
   ("Vitamina K (µg)", "No establecido"),
   ("Colina (mg)", "No establecido")]

/-- Source table block: vitaminas for Ecuador. -/
def vitaminas_Ecuador : List (String × String) :=
  [("Vitamina A / Retinol (µg)", "120 - 3000 [33]"),
   ("Ácido Fólico (µg)", "30 - 1000 [34]"),
   ("Beta Caroteno (mg)", "0,72 - No establecido [35]"),
   ("Biotina (µg)", "45 - No establecido [36]"),
   ("Vit B1 / Tiamina (mg)", "0,21 - No establecido [37]"),
   ("Vit B2 / Riboflavina (mg)", "0,24 - No establecido [38]"),
   ("Vit B3 / Niacina (mg)", "2,7 - 35 [39]"),
   ("Vit B5 / Ac. Pantoténico (mg)", "1,5 - No establecido [40]"),
   ("Vit B6 / Piridoxina (mg)", "0,3 - 100 [41]"),
   ("Vit B12 / Cianocobalamina (µg)", "0,15 - No establecido [42]"),
   ("Vit C / Ac. Ascórbico (mg)", "9 - 2000 [43]"),
   ("Vitamina D (µg)", "0,75 - 100 [44]"),
   ("Vitamina E /d-tocoferol (mg)", "3 - 1000 [45]"),
   ("Vitamina K (µg)", "12 - No establecido [46]"),
   ("Colina (mg)", "No establecido - 3500 [47]")]

/-- Source table block: vitaminas for Guatemala. -/
def vitaminas_Guatemala : List (String × String) :=
  [("Vitamina A / Retinol (µg)", "AL:15-3000 / PF:160-3000 [48]"),
   ("Ácido Fólico (µg)", "AL:66-1000 / PF:80-1000 [49]"),
   ("Beta Caroteno (mg)", "No establecidos"),
   ("Biotina (µg)", "UL:8-60 / PF:6-2,5 [50]"),
   ("Vit B1 / Tiamina (mg)", "AL:0,02-0,15 / PF:0,24-100 [51]"),
   ("Vit B2 / Riboflavina (mg)", "AL:0,32-2,4 / PF:0,24-200 [52]"),
   ("Vit B3 / Niacina (mg)", "AL:0,32-900 / PF:3-35 [53]"),
   ("Vit B5 / Ac. Pantoténico (mg)", "AL:1-7,5 / PF:1-1000 [54]"),
   ("Vit B6 / Piridoxina (mg)", "AL:0,34-25 / PF:0,26-100 [55]"),
   ("Vit B12 / Cianocobalamina (µg)", "AL:0,8-6 / PF:0,48-3000 [56]"),
   ("Vit C / Ac. Ascórbico (mg)", "AL:22-165 / PF:20-2000 [57]"),
   ("Vitamina D (µg)", "AL:3-100 / PF:3-50 [58]"),
   ("Vitamina E /d-tocoferol (mg)", "AL:2,6-300 / PF:1,8-1000 [59]"),
   ("Vitamina K (µg)", "AL:14-105 / PF:12-10000 [60]"),
   ("Colina (mg)", "AL:80-600 / PF:NE-3500 [61]")]

/-- Source table block: vitaminas for Honduras. -/
def vitaminas_Honduras : List (String × String) :=
  [("Vitamina A / Retinol (µg)", "No establecidos"),
   ("Ácido Fólico (µg)", "No establecidos"),
   ("Beta Caroteno (mg)", "No establecidos"),
   ("Biotina (µg)", "No establecidos"),
   ("Vit B1 / Tiamina (mg)", "No establecidos"),
   ("Vit B2 / Riboflavina (mg)", "No establecidos"),
   ("Vit B3 / Niacina (mg)", "No establecidos"),
   ("Vit B5 / Ac. Pantoténico (mg)", "No establecidos"),
   ("Vit B6 / Piridoxina (mg)", "No establecidos"),
   ("Vit B12 / Cianocobalamina (µg)", "No establecidos"),
   ("Vit C / Ac. Ascórbico (mg)", "No establecidos"),
   ("Vitamina D (µg)", "No establecidos"),
   ("Vitamina E /d-tocoferol (mg)", "No establecidos"),
   ("Vitamina K (µg)", "No establecidos"),
   ("Colina (mg)", "No establecidos")]

/-- Source table block: vitaminas for México. -/
def vitaminas_Mexico : List (String × String) :=
  [("Vitamina A / Retinol (µg)", "No establecido - 1000"),
   ("Ácido Fólico (µg)", "No establecido - 400"),
   ("Beta Caroteno (mg)", "No establecido - 15"),
   ("Biotina (µg)", "No establecido - 300"),
   ("Vit B1 / Tiamina (mg)", "No establecido - 15"),
   ("Vit B2 / Riboflavina (mg)", "No establecido - 18"),
   ("Vit B3 / Niacina (mg)", "No establecido - 25"),
   ("Vit B5 / Ac. Pantoténico (mg)", "No establecido - 20"),
   ("Vit B6 / Piridoxina (mg)", "No establecido - 10"),
   ("Vit B12 / Cianocobalamina (µg)", "No establecido - 12"),
   ("Vit C / Ac. Ascórbico (mg)", "No establecido - 300"),
   ("Vitamina D (µg)", "No establecido - 10"),
   ("Vitamina E /d-tocoferol (mg)", "No establecido - 200"),
   ("Vitamina K (µg)", "No establecido - 30"),
   ("Colina (mg)", "No establecidos")]

/-- Source table block: vitaminas for Nicaragua. -/
def vitaminas_Nicaragua : List (String × String) :=
  [("Vitamina A / Retinol (µg)", "No establecido"),
   ("Ácido Fólico (µg)", "No establecido"),
   ("Beta Caroteno (mg)", "No establecido"),
   ("Biotina (µg)", "No establecido"),
   ("Vit B1 / Tiamina (mg)", "No establecido"),
   ("Vit B2 / Riboflavina (mg)", "No establecido"),
   ("Vit B3 / Niacina (mg)", "No establecido"),
   ("Vit B5 / Ac. Pantoténico (mg)", "No establecido"),
   ("Vit B6 / Piridoxina (mg)", "No establecido"),
   ("Vit B12 / Cianocobalamina (µg)", "No establecido"),
   ("Vit C / Ac. Ascórbico (mg)", "No establecido"),
   ("Vitamina D (µg)", "No establecido"),
   ("Vitamina E /d-tocoferol (mg)", "No establecido"),
   ("Vitamina K (µg)", "No establecido"),
   ("Colina (mg)", "No establecido")]

/-- Source table block: vitaminas for Panamá. -/
def vitaminas_Panama : List (String × String) :=
  [("Vitamina A / Retinol (µg)", "No establecido"),
   ("Ácido Fólico (µg)", "No establecido"),
   ("Beta Caroteno (mg)", "No establecido"),
   ("Biotina (µg)", "No establecido"),
   ("Vit B1 / Tiamina (mg)", "No establecido"),
   ("Vit B2 / Riboflavina (mg)", "No establecido"),
   ("Vit B3 / Niacina (mg)", "No establecido"),
   ("Vit B5 / Ac. Pantoténico (mg)", "No establecido"),
   ("Vit B6 / Piridoxina (mg)", "No establecido"),
   ("Vit B12 / Cianocobalamina (µg)", "No establecido"),
   ("Vit C / Ac. Ascórbico (mg)", "No establecido"),
   ("Vitamina D (µg)", "No establecido"),
   ("Vitamina E /d-tocoferol (mg)", "No establecido"),
   ("Vitamina K (µg)", "No establecido"),
   ("Colina (mg)", "No establecido")]

/-- Source table block: vitaminas for Perú. -/
def vitaminas_Peru : List (String × String) :=
  [("Vitamina A / Retinol (µg)", "No establecidos"),
   ("Ácido Fólico (µg)", "No establecidos"),
   ("Beta Caroteno (mg)", "No establecidos"),
   ("Biotina (µg)", "No establecidos"),
   ("Vit B1 / Tiamina (mg)", "No establecidos"),
   ("Vit B2 / Riboflavina (mg)", "No establecidos"),
   ("Vit B3 / Niacina (mg)", "No establecidos"),
   ("Vit B5 / Ac. Pantoténico (mg)", "No establecidos"),
   ("Vit B6 / Piridoxina (mg)", "No establecidos"),
   ("Vit B12 / Cianocobalamina (µg)", "No establecidos"),
   ("Vit C / Ac. Ascórbico (mg)", "No establecidos"),
   ("Vitamina D (µg)", "No establecidos"),
   ("Vitamina E /d-tocoferol (mg)", "No establecidos"),
   ("Vitamina K (µg)", "No establecidos"),
   ("Colina (mg)", "No establecidos")]

/-- Source table block: vitaminas for El Salvador. -/
def vitaminas_ElSalvador : List (String × String) :=
  [("Vitamina A / Retinol (µg)", "No establecido"),
   ("Ácido Fólico (µg)", "No establecido"),
   ("Beta Caroteno (mg)", "No establecido"),
   ("Biotina (µg)", "No establecido"),
   ("Vit B1 / Tiamina (mg)", "No establecido"),
   ("Vit B2 / Riboflavina (mg)", "No establecido"),
   ("Vit B3 / Niacina (mg)", "No establecido"),
   ("Vit B5 / Ac. Pantoténico (mg)", "No establecido"),
   ("Vit B6 / Piridoxina (mg)", "No establecido"),
   ("Vit B12 / Cianocobalamina (µg)", "No establecido"),
   ("Vit C / Ac. Ascórbico (mg)", "No establecido"),
   ("Vitamina D (µg)", "No establecido"),
   ("Vitamina E /d-tocoferol (mg)", "No establecido"),
   ("Vitamina K (µg)", "No establecido"),
   ("Colina (mg)", "No establecido")]

/-- The `vitaminas_raw` nested source table. -/
def vitaminas_raw : List (String × List (String × String)) :=
  [("Argentina", vitaminas_Argentina),
   ("Brasil", vitaminas_Brasil),
   ("Chile", vitaminas_Chile),
   ("Colombia", vitaminas_Colombia),
   ("Costa Rica", vitaminas_CostaRica),
   ("República Dominicana", vitaminas_RepublicaDominicana),
   ("Ecuador", vitaminas_Ecuador),
   ("Guatemala", vitaminas_Guatemala),
   ("Honduras", vitaminas_Honduras),
   ("México", vitaminas_Mexico),
   ("Nicaragua", vitaminas_Nicaragua),
   ("Panamá", vitaminas_Panama),
   ("Perú", vitaminas_Peru),
   ("El Salvador", vitaminas_ElSalvador)]

/-- Source table block: minerales for Argentina. -/
def minerales_Argentina : List (String × String) :=
  [("Magnesio (mg)", "78 - 400 [8]"),
   ("Cobre (mg)", "0,27 - 9 [3]"),
   ("Hierro (mg)", "4,2 - 60 [7]"),
   ("Calcio (mg)", "300 - 1500 [2]"),
   ("Cromo (µg)", "10,5 - 200 [4]"),
   ("Flúor (mg)", "No Establecidos [5]"),
   ("Fósforo (mg)", "210 - 1500 [6]"),
   ("Manganeso (mg)", "0,69 - 10 [9]"),
   ("Molibdeno (µg)", "13,5 - 350 [10]"),
   ("Selenio (µg)", "10,2 - 200 [11]"),
   ("Yodo (µg)", "39 - 500 [12]"),
   ("Zinc (mg)", "2,1 - 30 [13]"),
   ("Boro (mg)", "No establecido - 6 [1]"),
   ("Níquel (mg)", "No estblecido"),
   ("Potasio (mg)", "No establecido"),
   ("Silicio (mg)", "No establecidos"),
   ("Sodio (mg)", "No establecido"),
   ("Vanadio (mg)", "No establecido")]

/-- Source table block: minerales for Brasil. -/
def minerales_Brasil : List (String × String) :=
  [("Magnesio (mg)", "63 - 350 [20]"),
   ("Cobre (mg)", "135 - 8975,52 [16]"),
   ("Hierro (mg)", "2,7 - 34,31 [19]"),
   ("Calcio (mg)", "180 - 1534,67 [15]"),
   ("Cromo (µg)", "5,25 - 250 [17]"),
   ("Flúor (mg)", "No establecidos"),
   ("Fósforo (mg)", "105 - 2083,89 [18]"),
   ("Manganeso (mg)", "0,35 - 1,66 [21]"),
   ("Molibdeno (µg)", "6,75 - 1955 [22]"),
   ("Selenio (µg)", "8,25 - 319,75 [24]"),
   ("Yodo (µg)", "22,5 - 919,02 [27]"),
   ("Zinc (mg)", "1,65 - 29,59 [28]"),
   ("Boro (mg)", "No establecido - 8866 [14]"),
   ("Níquel (mg)", "No establecido"),
   ("Potasio (mg)", "No establecido [23]"),
   ("Silicio (mg)", "No establecido [25]"),
   ("Sodio (mg)", "None [26]"),
   ("Vanadio (mg)", "No establecido")]

/-- Source table block: minerales for Chile. -/
def minerales_Chile : List (String × String) :=
  [("Magnesio (mg)", "75 - 400"),
   ("Cobre (mg)", "0,5 - 3,3"),
   ("Hierro (mg)", "3,5 - 25"),
   ("Calcio (mg)", "400 - 1600"),
   ("Cromo (µg)", "17,5 - 200"),
   ("Flúor (mg)", "No establecido"),
   ("Fósforo (mg)", "400 - 1600"),
   ("Manganeso (mg)", "0,5 - 6"),
   ("Molibdeno (µg)", "25 - 600"),
   ("Selenio (µg)", "17,5 - 200"),
   ("Yodo (µg)", "30 - 150"),
   ("Zinc (mg)", "3,8 - 20"),
   ("Boro (mg)", "No establecido"),
   ("Níquel (mg)", "No establecido"),
   ("Potasio (mg)", "No establecido - 3715 [29]"),
   ("Silicio (mg)", "No establecido"),
   ("Sodio (mg)", "No establecido - 1610 [30]"),
   ("Vanadio (mg)", "No establecido")]

/-- Source table block: minerales for Colombia. -/
def minerales_Colombia : List (String × String) :=
  [("Magnesio (mg)", "No establecido - 350 [33]"),
   ("Cobre (mg)", "No establecido - 10"),
   ("Hierro (mg)", "No establecido - 45"),
   ("Calcio (mg)", "No establecido - 1500 [31]"),
   ("Cromo (µg)", "No establecido - 1000"),
   ("Flúor (mg)", "No establecido - 10"),
   ("Fósforo (mg)", "No establecido - 250 [32]"),
   ("Manganeso (mg)", "No establecido - 11"),
   ("Molibdeno (µg)", "No establecido - 2000"),
   ("Selenio (µg)", "No establecido - 400"),
   ("Yodo (µg)", "No establecido - 1100"),
   ("Zinc (mg)", "No establecido - 40"),
   ("Boro (mg)", "No establecido - 6"),
   ("Níquel (mg)", "No establecido - 0,72"),
   ("Potasio (mg)", "No establecido - 3700 [34]"),
   ("Silicio (mg)", "No establecido - 700"),
   ("Sodio (mg)", "No establecido - 2300"),
   ("Vanadio (mg)", "No establecido - 0,05")]

/-- Source table block: minerales for Costa Rica. -/
def minerales_CostaRica : List (String × String) :=
  [("Magnesio (mg)", "80 - 400"),
   ("Cobre (mg)", "0,4 - 10 [35]"),
   ("Hierro (mg)", "3,6 - 60"),
   ("Calcio (mg)", "200 - 2500"),
   ("Cromo (µg)", "24 - No establecido"),
   ("Flúor (mg)", "No establecido - 10"),
   ("Fósforo (mg)", "200 - 4000"),
   ("Manganeso (mg)", "0,4 - 10"),
   ("Molibdeno (µg)", "15 - 2000"),
   ("Selenio (µg)", "14 - 400"),
   ("Yodo (µg)", "30 - 1100"),
   ("Zinc (mg)", "mar-40"),
   ("Boro (mg)", "No establecido - 20"),
   ("Níquel (mg)", "None"),
   ("Potasio (mg)", "None"),
   ("Silicio (mg)", "None"),
   ("Sodio (mg)", "None"),
   ("Vanadio (mg)", "None")]

/-- Source table block: minerales for República Dominicana. -/
def minerales_RepublicaDominicana : List (String × String) :=
  [("Magnesio (mg)", "No establecido"),
   ("Cobre (mg)", "No establecido"),
   ("Hierro (mg)", "No establecido"),
   ("Calcio (mg)", "No establecido"),
   ("Cromo (µg)", "No establecido"),
   ("Flúor (mg)", "No establecido"),
   ("Fósforo (mg)", "No establecido"),
   ("Manganeso (mg)", "No establecido"),
   ("Molibdeno (µg)", "No establecido"),
   ("Selenio (µg)", "No establecido"),
   ("Yodo (µg)", "No establecido"),
   ("Zinc (mg)", "No establecido"),
   ("Boro (mg)", "No establecido"),
   ("Níquel (mg)", "No establecido"),
   ("Potasio (mg)", "No establecido"),
   ("Silicio (mg)", "No establecido"),
   ("Sodio (mg)", "No establecido"),
   ("Vanadio (mg)", "No establecido")]

/-- Source table block: minerales for Ecuador. -/
def minerales_Ecuador : List (String × String) :=
  [("Magnesio (mg)", "45 - 350 [43]"),
   ("Cobre (mg)", "0,3 - 10 [38]"),
   ("Hierro (mg)", "2,1 - No establecido [42]"),
   ("Calcio (mg)", "120 - 2500 [37]"),
   ("Cromo (µg)", "18 - No establecido [39]"),
   ("Flúor (mg)", "No establecido - 10 [40]"),
   ("Fósforo (mg)", "150 - 4000 [41]"),
   ("Manganeso (mg)", "0,3 - 11 [44]"),
   ("Molibdeno (µg)", "11,25 - 2000 [45]"),
   ("Selenio (µg)", "10,5 - 400 [48]"),
   ("Yodo (µg)", "22,5 - 1100 [52]"),
   ("Zinc (mg)", "2,25 - 40 [53]"),
   ("Boro (mg)", "No establecido - 20 [36]"),
   ("Níquel (mg)", "No establecido - 1,0 [46]"),
   ("Potasio (mg)", "525 - No establecido [47]"),
   ("Silicio (mg)", "No establecido [49]"),
   ("Sodio (mg)", "No establecido - 2300 [50]"),
   ("Vanadio (mg)", "No establecido - 1,8 [51]")]

/-- Source table block: minerales for Guatemala. -/
def minerales_Guatemala : List (String × String) :=
  [("Magnesio (mg)", "AL:70-250 / PF:62-400 [61]"),
   ("Cobre (mg)", "AL:0,32-5 / PF: 0,9-10 [56]"),
   ("Hierro (mg)", "AL:1,4-10,5 / PF:3,6-45 [60]"),
   ("Calcio (mg)", "AL:200-2500 /PF:200-2500 [55]"),
   ("Cromo (µg)", "AL: ND / PF: 7-1000 [57]"),
   ("Flúor (mg)", "AL:0,68-7 / PF:2-10 [58]"),
   ("Fósforo (mg)", "AL:110-825 / PF:140-4000 [59]"),
   ("Manganeso (mg)", "AL:0,6-4,5 / PF:0,6-10 [62]"),
   ("Molibdeno (µg)", "AL:13-600 / PF:9-2000 [63]"),
   ("Selenio (µg)", "AL:14-300 / PF:12-400 [66]"),
   ("Yodo (µg)", "AL:30-600 / PF:30-1100 [70]"),
   ("Zinc (mg)", "AL:2,34-25 / PF:2,6-40 [71]"),
   ("Boro (mg)", "AL:ND / PF:NE-20 [54]"),
   ("Níquel (mg)", "AL:NE / PF: NE-1 [64]"),
   ("Potasio (mg)", "AL:700-5250/PF:0,94-NE [65]"),
   ("Silicio (mg)", "AL:ND / PF:ND [67]"),
   ("Sodio (mg)", "AL:400-3000 / PF:300-NE [68]"),
   ("Vanadio (mg)", "AL: ND / PF:ND [69]")]

/-- Source table block: minerales for Honduras. -/
def minerales_Honduras : List (String × String) :=
  [("Magnesio (mg)", "No establecidos"),
   ("Cobre (mg)", "No establecidos"),
   ("Hierro (mg)", "No establecidos"),
   ("Calcio (mg)", "No establecidos"),
   ("Cromo (µg)", "No establecidos"),
   ("Flúor (mg)", "No establecidos"),
   ("Fósforo (mg)", "No establecidos"),
   ("Manganeso (mg)", "No establecidos"),
   ("Molibdeno (µg)", "No establecidos"),
   ("Selenio (µg)", "No establecidos"),
   ("Yodo (µg)", "No establecidos"),
   ("Zinc (mg)", "No establecidos"),
   ("Boro (mg)", "No establecidos"),
   ("Níquel (mg)", "No establecidos"),
   ("Potasio (mg)", "No establecidos"),
   ("Silicio (mg)", "No establecidos"),
   ("Sodio (mg)", "No establecidos"),
   ("Vanadio (mg)", "No establecidos")]

/-- Source table block: minerales for México. -/
def minerales_Mexico : List (String × String) :=
  [("Magnesio (mg)", "No establecido - 500"),
   ("Cobre (mg)", "No establecido - 3"),
   ("Hierro (mg)", "No establecido - 20"),
   ("Calcio (mg)", "No establecido - 1200"),
   ("Cromo (µg)", "No establecido - 200"),
   ("Flúor (mg)", "No establecido - 1"),
   ("Fósforo (mg)", "No establecido - 1200"),
   ("Manganeso (mg)", "No establecido - 7,5"),
   ("Molibdeno (µg)", "No establecido - 250"),
   ("Selenio (µg)", "No establecido - 100"),
   ("Yodo (µg)", "No establecido - 200"),
   ("Zinc (mg)", "No establecido - 20 [72]"),
   ("Boro (mg)", "No establecidos"),
   ("Níquel (mg)", "No establecidos"),
   ("Potasio (mg)", "No establecidos"),
   ("Silicio (mg)", "No establecidos"),
   ("Sodio (mg)", "No establecidos"),
   ("Vanadio (mg)", "No establecidos")]

/-- Source table block: minerales for Nicaragua. -/
def minerales_Nicaragua : List (String × String) :=
  [("Magnesio (mg)", "No establecido"),
   ("Cobre (mg)", "No establecido"),
   ("Hierro (mg)", "No establecido"),
   ("Calcio (mg)", "No establecido"),
   ("Cromo (µg)", "No establecido"),
   ("Flúor (mg)", "No establecido"),
   ("Fósforo (mg)", "No establecido"),
   ("Manganeso (mg)", "No establecido"),
   ("Molibdeno (µg)", "No establecido"),
   ("Selenio (µg)", "No establecido"),
   ("Yodo (µg)", "No establecido"),
   ("Zinc (mg)", "No establecido"),
   ("Boro (mg)", "No establecido"),
   ("Níquel (mg)", "No establecido"),
   ("Potasio (mg)", "No establecido"),
   ("Silicio (mg)", "No establecido"),
   ("Sodio (mg)", "No establecido"),
   ("Vanadio (mg)", "No establecido")]

/-- Source table block: minerales for Panamá. -/
def minerales_Panama : List (String × String) :=
  [("Magnesio (mg)", "No establecido"),
   ("Cobre (mg)", "No establecido"),
   ("Hierro (mg)", "No establecido"),
   ("Calcio (mg)", "No establecido"),
   ("Cromo (µg)", "No establecido"),
   ("Flúor (mg)", "No establecido"),
   ("Fósforo (mg)", "No establecido"),
   ("Manganeso (mg)", "No establecido"),
   ("Molibdeno (µg)", "No establecido"),
   ("Selenio (µg)", "No establecido"),
   ("Yodo (µg)", "No establecido"),
   ("Zinc (mg)", "No establecido"),
   ("Boro (mg)", "No establecido"),
   ("Níquel (mg)", "No establecido"),
   ("Potasio (mg)", "No establecido"),
   ("Silicio (mg)", "No establecido"),
   ("Sodio (mg)", "No establecido"),
   ("Vanadio (mg)", "No establecido")]

/-- Source table block: minerales for Perú. -/
def minerales_Peru : List (String × String) :=
  [("Magnesio (mg)", "No establecidos"),
   ("Cobre (mg)", "No establecidos"),
   ("Hierro (mg)", "No establecidos"),
   ("Calcio (mg)", "No establecidos"),
   ("Cromo (µg)", "No establecidos"),
   ("Flúor (mg)", "No establecidos"),
   ("Fósforo (mg)", "No establecidos"),
   ("Manganeso (mg)", "No establecidos"),
   ("Molibdeno (µg)", "No establecidos"),
   ("Selenio (µg)", "No establecidos"),
   ("Yodo (µg)", "No establecidos"),
   ("Zinc (mg)", "No establecidos"),
   ("Boro (mg)", "No establecidos"),
   ("Níquel (mg)", "No establecidos"),
   ("Potasio (mg)", "No establecidos"),
   ("Silicio (mg)", "No establecidos"),
   ("Sodio (mg)", "No establecidos"),
   ("Vanadio (mg)", "No establecidos")]

/-- Source table block: minerales for El Salvador. -/
def minerales_ElSalvador : List (String × String) :=
  [("Magnesio (mg)", "No establecido"),
   ("Cobre (mg)", "No establecido"),
   ("Hierro (mg)", "No establecido"),
   ("Calcio (mg)", "No establecido"),
   ("Cromo (µg)", "No establecido"),
   ("Flúor (mg)", "No establecido"),
   ("Fósforo (mg)", "No establecido"),
   ("Manganeso (mg)", "No establecido"),
   ("Molibdeno (µg)", "No establecido"),
   ("Selenio (µg)", "No establecido"),
   ("Yodo (µg)", "No establecido"),
   ("Zinc (mg)", "No establecido"),
   ("Boro (mg)", "No establecido"),
   ("Níquel (mg)", "No establecido"),
   ("Potasio (mg)", "No establecido"),
   ("Silicio (mg)", "No establecido"),
   ("Sodio (mg)", "No establecido"),
   ("Vanadio (mg)", "No establecido")]

/-- The `minerales_raw` nested source table. -/
def minerales_raw : List (String × List (String × String)) :=
  [("Argentina", minerales_Argentina),
   ("Brasil", minerales_Brasil),
   ("Chile", minerales_Chile),
   ("Colombia", minerales_Colombia),
   ("Costa Rica", minerales_CostaRica),
   ("República Dominicana", minerales_RepublicaDominicana),
   ("Ecuador", minerales_Ecuador),
   ("Guatemala", minerales_Guatemala),
   ("Honduras", minerales_Honduras),
   ("México", minerales_Mexico),
   ("Nicaragua", minerales_Nicaragua),
   ("Panamá", minerales_Panama),
   ("Perú", minerales_Peru),
   ("El Salvador", minerales_ElSalvador)]

/-- `normalizar_datos_suplementos`: the vitamin loop followed by the mineral
loop, in source declaration order. -/
def normalizar_datos_suplementos : List Registro :=
  (vitaminas_raw.flatMap (fun pv => pv.2.flatMap (procesarVitamina pv.1))) ++
  (minerales_raw.flatMap (fun pm => pm.2.flatMap (procesarMineral pm.1)))

/-! ## Branch-structure lemmas about the driver -/

theorem procesarVitamina_establecido {p : String} {v : String × String} {r : Registro}
    (h : r ∈ procesarVitamina p v) :
    r.establecido = (r.minimo.isSome || r.maximo.isSome) := by
  simp only [procesarVitamina] at h
  split at h
  · obtain ⟨cat, -, rfl⟩ := List.mem_map.mp h
    rfl
  · simp only [List.mem_singleton] at h
    subst h
    rfl

theorem procesarVitamina_tipo {p : String} {v : String × String} {r : Registro}
    (h : r ∈ procesarVitamina p v) : r.tipo = "Vitamina" := by
  simp only [procesarVitamina] at h
  split at h
  · obtain ⟨cat, -, rfl⟩ := List.mem_map.mp h
    rfl
  · simp only [List.mem_singleton] at h
    subst h
    rfl

theorem procesarMineral_eq (p : String) (v : String × String) :
    procesarMineral p v =
      [{ pais := p, ingrediente := nombreLimpio v.1, tipo := "Mineral",
         unidad := unidadDe v.1,
         minimo := (parsear_rango (extraer_referencias v.2).1).1,
         maximo := (parsear_rango (extraer_referencias v.2).1).2,
         establecido := (parsear_rango (extraer_referencias v.2).1).1.isSome ||
           (parsear_rango (extraer_referencias v.2).1).2.isSome,
         categoria_regulacion := "Estándar",
         referencias := uneReferencias (extraer_referencias v.2).2,
         valor_original := v.2 }] := rfl

/-- The per-entry record count described by the spec: 1 for an ordinary entry,
the decomposed category count for a composite-branch entry. -/
def contribucion (pais valor : String) : Nat :=
  if condCompuesta pais (extraer_referencias valor).1 then
    (parsear_guatemala (extraer_referencias valor).1).length
  else 1

theorem length_procesarVitamina (p : String) (v : String × String) :
    (procesarVitamina p v).length = contribucion p v.2 := by
  unfold procesarVitamina contribucion
  split
  · next hc => rw [if_pos hc, List.length_map]
  · next hc => rw [if_neg hc]; rfl

theorem length_procesarMineral (p : String) (v : String × String) :
    (procesarMineral p v).length = 1 := rfl

/-! ## Claim theorems -/

/-- C1: for every record emitted by the normalization driver — vitamin branch,
Guatemala composite branch, and mineral branch alike — the `establecido` flag
is true exactly when at least one of `minimo`, `maximo` is non-null. -/
theorem c1_establecido_sii_cota :
    (normalizar_datos_suplementos.all
      (fun r => r.establecido == (r.minimo.isSome || r.maximo.isSome))) = true := by
  rw [List.all_eq_true]
  intro r hr
  have : r.establecido = (r.minimo.isSome || r.maximo.isSome) := by
    unfold normalizar_datos_suplementos at hr
    rcases List.mem_append.mp hr with hv | hm
    · obtain ⟨pv, -, hv⟩ := List.mem_flatMap.mp hv
      obtain ⟨v, -, hv⟩ := List.mem_flatMap.mp hv
      exact procesarVitamina_establecido hv
    · obtain ⟨pm, -, hm⟩ := List.mem_flatMap.mp hm
      obtain ⟨v, -, hm⟩ := List.mem_flatMap.mp hm
      rw [procesarMineral_eq] at hm
      simp only [List.mem_singleton] at hm
      subst hm
      rfl
  simp [this]

/-- C10: every Mineral record carries category `Estándar` (the mineral loop
never invokes the Guatemala decomposer), and on Guatemala composite mineral
strings such as Magnesio the whole string goes through the range parser at
once, yielding null bounds and `establecido = false`. -/
theorem c10_minerales_estandar :
    (normalizar_datos_suplementos.all
      (fun r => !(r.tipo == "Mineral") || (r.categoria_regulacion == "Estándar"))) = true ∧
    procesarMineral "Guatemala" ("Magnesio (mg)", "AL:70-250 / PF:62-400 [61]") =
      [{ pais := "Guatemala", ingrediente := "Magnesio", tipo := "Mineral", unidad := "mg",
         minimo := none, maximo := none, establecido := false,
         categoria_regulacion := "Estándar", referencias := some "61",
         valor_original := "AL:70-250 / PF:62-400 [61]" }] := by
  constructor
  · rw [List.all_eq_true]
    intro r hr
    unfold normalizar_datos_suplementos at hr
    rcases List.mem_append.mp hr with hv | hm
    · obtain ⟨pv, -, hv⟩ := List.mem_flatMap.mp hv
      obtain ⟨v, -, hv⟩ := List.mem_flatMap.mp hv
      have := procesarVitamina_tipo hv
      simp [this]
    · obtain ⟨pm, -, hm⟩ := List.mem_flatMap.mp hm
      obtain ⟨v, -, hm⟩ := List.mem_flatMap.mp hm
      rw [procesarMineral_eq] at hm
      simp only [List.mem_singleton] at hm
      subst hm
      simp
  · decide

theorem sum_map_uno {α : Type} (l : List α) : (l.map (fun _ => (1 : Nat))).sum = l.length := by
  induction l with
  | nil => rfl
  | cons a t ih => simp [ih]; omega

/-- C4: the driver record count is the sum, over all input entries, of 1 for
an ordinary entry and of the decomposed category count for a composite-branch
entry; and any block of entries that never takes the composite branch emits
exactly one record per entry (so such a country's record count equals its
ingredient count). -/
theorem c4_conteo_registros :
    normalizar_datos_suplementos.length =
      (vitaminas_raw.map (fun pv => (pv.2.map (fun v => contribucion pv.1 v.2)).sum)).sum +
      (minerales_raw.map (fun pm => pm.2.length)).sum ∧
    (∀ (p : String) (vs : List (String × String)),
      (∀ v ∈ vs, condCompuesta p (extraer_referencias v.2).1 = false) →
      (vs.flatMap (procesarVitamina p)).length = vs.length) ∧
    (∀ (p : String) (ms : List (String × String)),
      (ms.flatMap (procesarMineral p)).length = ms.length) := by
  refine ⟨?_, ?_, ?_⟩
  · unfold normalizar_datos_suplementos
    simp only [List.length_append, List.length_flatMap, Function.comp_def, length_procesarVitamina,
      length_procesarMineral, sum_map_uno]
  · intro p vs h
    induction vs with
    | nil => rfl
    | cons a t ih =>
      rw [List.flatMap_cons, List.length_append, length_procesarVitamina]
      have hc : contribucion p a.2 = 1 := by
        unfold contribucion
        rw [if_neg (by simp [h a (by simp)])]
      rw [hc, ih (fun v hv => h v (by simp [hv]))]
      simp
      omega
  · intro p ms
    induction ms with
    | nil => rfl
    | cons a t ih =>
      rw [List.flatMap_cons, List.length_append, length_procesarMineral, ih]
      simp
      omega

/-- Witness for C4: Chile is a country none of whose vitamin entries takes the
composite branch, and its vitamin block emits exactly one record per entry. -/
theorem c4_conteo_registros_testigo :
    (∀ v ∈ vitaminas_Chile, condCompuesta "Chile" (extraer_referencias v.2).1 = false) ∧
    (vitaminas_Chile.flatMap (procesarVitamina "Chile")).length = vitaminas_Chile.length :=
  ⟨by decide, c4_conteo_registros.2.1 "Chile" vitaminas_Chile (by decide)⟩

/-- C2: in the two-sided case, if exactly one side parses to null (sentinel,
empty, or unparseable) and the other to a number, both bounds become that
number; if both sides parse or both are null the pair is returned unchanged;
in particular the two spec examples hold. -/
theorem c2_lado_nulo_copia :
    (∀ (mn mx : Chars) (q : ℚ), procesaLado mn = none → procesaLado mx = some q →
      dosLados mn mx = (some q, some q)) ∧
    (∀ (mn mx : Chars) (q : ℚ), procesaLado mn = some q → procesaLado mx = none →
      dosLados mn mx = (some q, some q)) ∧
    (∀ mn mx : Chars, (procesaLado mn).isSome = (procesaLado mx).isSome →
      dosLados mn mx = (procesaLado mn, procesaLado mx)) ∧
    parsear_rango "No establecido - 3000" = (some 3000, some 3000) ∧
    parsear_rango "0,3 - No establecido" = (some (3/10), some (3/10)) := by
  refine ⟨?_, ?_, ?_, ?_, ?_⟩
  · intro mn mx q h1 h2
    unfold dosLados
    rw [h1, h2]
  · intro mn mx q h1 h2
    unfold dosLados
    rw [h1, h2]
  · intro mn mx h
    unfold dosLados
    cases h1 : procesaLado mn <;> cases h2 : procesaLado mx <;>
      first
      | rfl
      | (rw [h1, h2] at h; simp at h)
      | simp_all
  · have h : parsear_rango "No establecido - 3000" = (some (mkRat 3000 1), some (mkRat 3000 1)) := by
      decide
    rw [h, Rat.mkRat_eq_div]
    norm_num
  · have h : parsear_rango "0,3 - No establecido" = (some (mkRat 3 10), some (mkRat 3 10)) := by
      decide
    rw [h, Rat.mkRat_eq_div]
    norm_num

/-- Witness for C2 at the concrete sides of `"No establecido - 3000"`. -/
theorem c2_lado_nulo_copia_testigo :
    procesaLado "No establecido".data = none ∧
    procesaLado "3000".data = some (mkRat 3000 1) ∧
    dosLados "No establecido".data "3000".data = (some (mkRat 3000 1), some (mkRat 3000 1)) :=
  ⟨by decide, by decide, c2_lado_nulo_copia.1 _ _ (mkRat 3000 1) (by decide) (by decide)⟩

/-- C5: the range parser is total in the embedding and always produces a pair
whose two components are both null or both numeric (an unparseable side
degrades to null and is then subject to the fallback, never an exception);
in particular a fully unparseable two-sided input yields `(none, none)`. -/
theorem c5_total_sin_excepcion :
    (∀ s : String, parsear_rango s = (none, none) ∨
      ∃ a b : ℚ, parsear_rango s = (some a, some b)) ∧
    parsear_rango "abc - xyz" = (none, none) := by
  constructor
  · intro s
    unfold parsear_rango
    split
    · exact Or.inl rfl
    · generalize aplicaCasos (pyStrip s.data) = v
      unfold trasCasos
      split
      · next mn mx _ =>
        unfold dosLados
        cases h1 : procesaLado mn <;> cases h2 : procesaLado mx
        · exact Or.inl rfl
        · exact Or.inr ⟨_, _, rfl⟩
        · exact Or.inr ⟨_, _, rfl⟩
        · exact Or.inr ⟨_, _, rfl⟩
      · unfold valorUnico
        split
        · exact Or.inl rfl
        · split
          · exact Or.inr ⟨_, _, rfl⟩
          · exact Or.inl rfl
  · decide

/-- C6: the Excel-date corrections are applied (case-insensitively, by
substring) before any splitting or numeric parsing — after the early
sentinel return, the parser is exactly the post-correction parser composed
with the correction pass — and `parse_range "may-15" = (5, 15)`, also for
the upper-case variant. -/
theorem c6_correccion_fechas :
    (∀ v : String, v ≠ "" → v ≠ "No establecidos" → v ≠ "No establecido" →
      parsear_rango v = trasCasos (aplicaCasos (pyStrip v.data))) ∧
    aplicaCasos (pyStrip ("may-15" : String).data) = "5 - 15".data ∧
    parsear_rango "may-15" = (some 5, some 15) ∧
    parsear_rango "MAY-15" = (some 5, some 15) := by
  have h5 : parsear_rango "may-15" = (some (mkRat 5 1), some (mkRat 15 1)) := by decide
  have h5M : parsear_rango "MAY-15" = (some (mkRat 5 1), some (mkRat 15 1)) := by decide
  refine ⟨?_, by decide,
    by rw [h5, Rat.mkRat_eq_div, Rat.mkRat_eq_div]; norm_num,
    by rw [h5M, Rat.mkRat_eq_div, Rat.mkRat_eq_div]; norm_num⟩
  intro v h1 h2 h3
  unfold parsear_rango
  rw [if_neg (by simp [h1, h2, h3])]

/-- Witness for C6 at `"may-15"`. -/
theorem c6_correccion_fechas_testigo :
    (("may-15" : String) ≠ "" ∧ ("may-15" : String) ≠ "No establecidos" ∧
      ("may-15" : String) ≠ "No establecido") ∧
    parsear_rango "may-15" = trasCasos (aplicaCasos (pyStrip ("may-15" : String).data)) :=
  ⟨⟨by decide, by decide, by decide⟩,
   c6_correccion_fechas.1 "may-15" (by decide) (by decide) (by decide)⟩

/-- C7: the split prefers the padded hyphen; absent that, and unless the
string is an unregulated-sentinel variant, it splits on the bare hyphen;
each side is parsed after decimal commas are turned into points; and
`parse_range "0,8-6" = (0.8, 6.0)`. -/
theorem c7_separadores :
    (∀ v : Chars, esSub sepPad v = true → partesDe v = some (divideSub ' ' ['-', ' '] v)) ∧
    (∀ v : Chars, esSub sepPad v = false → esSub ['-'] v = true →
      esSub noEstab (pyLower v) = false → partesDe v = some (divideSub '-' [] v)) ∧
    (∀ s : Chars, esSub noEstab (pyLower (pyStrip s)) = false → pyStrip s ≠ [] →
      procesaLado s = pyFloat (reemplaza ',' [] ['.'] (pyStrip s))) ∧
    parsear_rango "0,8-6" = (some (4/5), some 6) := by
  have h8 : parsear_rango "0,8-6" = (some (mkRat 8 10), some (mkRat 6 1)) := by decide
  refine ⟨?_, ?_, ?_, by rw [h8, Rat.mkRat_eq_div, Rat.mkRat_eq_div]; norm_num⟩
  · intro v h
    unfold partesDe
    rw [if_pos h]
  · intro v h1 h2 h3
    unfold partesDe
    rw [if_neg (by simp [h1]), if_pos (by simp [h2, h3])]
  · intro s h1 h2
    unfold procesaLado
    rw [if_neg (by simp [h1, h2])]

/-- Witness for C7 at `"180 - 3000"` (padded split) and side `"0,8"`. -/
theorem c7_separadores_testigo :
    esSub sepPad "180 - 3000".data = true ∧
    partesDe "180 - 3000".data = some (divideSub ' ' ['-', ' '] "180 - 3000".data) ∧
    procesaLado "0,8".data = pyFloat (reemplaza ',' [] ['.'] (pyStrip "0,8".data)) :=
  ⟨by decide, c7_separadores.1 _ (by decide), c7_separadores.2.2.1 _ (by decide) (by decide)⟩

/-! ## C3: the Guatemala decomposer -/

/-- Number of colon-bearing `/`-segments of the (stripped) input. -/
def segmentosConColon (s : String) : Nat :=
  (divideSub '/' [] (pyStrip s.data)).countP (fun p => (pyStrip p).contains ':')

theorem isPrefixOf_single (c d : Char) (t : Chars) :
    ([c].isPrefixOf (d :: t)) = (c == d) := by
  simp [List.isPrefixOf]

theorem buscaSub_single_none_iff (c : Char) (cs : Chars) :
    buscaSub c [] cs = none ↔ c ∉ cs := by
  induction cs with
  | nil => simp [buscaSub]
  | cons d t ih =>
    simp only [buscaSub, isPrefixOf_single]
    by_cases hc : c = d
    · subst hc
      simp
    · rw [if_neg (by simp [hc])]
      simp [Option.map_eq_none', ih, hc]

theorem length_segmentoGuatemala (p : Chars) :
    (segmentoGuatemala p).length = if (pyStrip p).contains ':' then 1 else 0 := by
  cases hb : buscaSub ':' [] (pyStrip p) with
  | none =>
    have hnm : ':' ∉ pyStrip p := (buscaSub_single_none_iff ':' (pyStrip p)).mp hb
    simp only [segmentoGuatemala, hb]
    simp [hnm]
  | some q =>
    obtain ⟨tipo, rango⟩ := q
    have hmem : ':' ∈ pyStrip p := by
      have := buscaSub_eq_some hb
      rw [this]
      simp
    simp only [segmentoGuatemala, hb]
    simp [hmem]

theorem length_flatten_segmentos (parts : List Chars) :
    ((parts.map segmentoGuatemala).flatten).length =
      parts.countP (fun p => (pyStrip p).contains ':') := by
  induction parts with
  | nil => rfl
  | cons a t ih =>
    rw [List.map_cons, List.flatten_cons, List.length_append, ih,
      List.countP_cons, length_segmentoGuatemala]
    exact Nat.add_comm _ _

/-- Counterexample to C3 as stated: an input that is not the sentinel string
itself (it merely contains it) and has one colon-bearing segment, yet
decomposes to the empty sequence. -/
theorem c3_contraejemplo :
    parsear_guatemala "AL:1-2 / No establecidos" = [] ∧
    ("AL:1-2 / No establecidos" : String) ≠ "No establecidos" ∧
    segmentosConColon "AL:1-2 / No establecidos" = 1 :=
  ⟨by decide, by decide, by decide⟩

/-- C3 (amended): the decomposer yields the empty sequence exactly when the
sentinel `"No establecidos"` occurs anywhere in the input as a substring or
no `/`-segment bears a colon; on sentinel-free inputs it yields exactly one
entry per colon-bearing segment. -/
theorem c3_vacio_sii_enmendada :
    (∀ s : String, parsear_guatemala s = [] ↔
      (esSub "No establecidos".data s.data = true ∨ segmentosConColon s = 0)) ∧
    (∀ s : String, esSub "No establecidos".data s.data = false →
      (parsear_guatemala s).length = segmentosConColon s) := by
  have hlen : ∀ s : String, esSub "No establecidos".data s.data = false →
      (parsear_guatemala s).length = segmentosConColon s := by
    intro s h
    unfold parsear_guatemala
    rw [if_neg (by simp [h])]
    exact length_flatten_segmentos _
  refine ⟨?_, hlen⟩
  intro s
  by_cases h : esSub "No establecidos".data s.data = true
  · constructor
    · intro _
      exact Or.inl h
    · intro _
      unfold parsear_guatemala
      rw [if_pos (by simp [h])]
  · have h' : esSub "No establecidos".data s.data = false := by
      simpa using h
    have := hlen s h'
    constructor
    · intro he
      right
      rw [← this, he]
      rfl
    · intro hc
      rcases hc with hc | hc
      · exact absurd hc h
      · have : (parsear_guatemala s).length = 0 := by rw [this, hc]
        exact List.length_eq_zero.mp this

/-- Witness for C3 (amended) on a sentinel-free composite input with two
colon-bearing segments. -/
theorem c3_vacio_sii_enmendada_testigo :
    esSub "No establecidos".data ("AL:15-3000 / PF:160-3000" : String).data = false ∧
    (parsear_guatemala "AL:15-3000 / PF:160-3000").length =
      segmentosConColon "AL:15-3000 / PF:160-3000" :=
  ⟨by decide, c3_vacio_sii_enmendada.2 "AL:15-3000 / PF:160-3000" (by decide)⟩

/-! ## C8: the residual of the reference extractor contains no matchable
bracket group

`Limpio xs` says that no position of `xs` starts a matchable `[body]` group;
on such strings the scanner is the identity and finds no references. -/

/-- No `[` in `xs` opens a matchable group. -/
def Limpio (xs : Chars) : Prop :=
  ∀ a b : Chars, xs = a ++ '[' :: b → tomaGrupo b = none

theorem tomaGrupo_nil : tomaGrupo [] = none := rfl

theorem tomaGrupo_cons_cierre (t : Chars) : tomaGrupo (']' :: t) = none := by
  simp [tomaGrupo]

theorem tomaGrupo_sin_cierre {t : Chars} (h : ']' ∉ t) : tomaGrupo t = none := by
  unfold tomaGrupo
  rw [if_pos]
  right
  rw [List.dropWhile_eq_nil_iff]
  intro x hx
  simp
  intro he
  exact absurd (he ▸ hx) h

theorem tomaGrupo_none_append {b q : Chars} (h : tomaGrupo (b ++ q) = none) :
    tomaGrupo b = none := by
  cases b with
  | nil => rfl
  | cons x b' =>
    by_cases hx : x = ']'
    · subst hx
      exact tomaGrupo_cons_cierre b'
    · apply tomaGrupo_sin_cierre
      intro hmem
      simp only [tomaGrupo] at h
      split at h
      · next hc =>
        rcases hc with hc | hc
        · rw [List.cons_append, List.takeWhile_cons_of_pos (by simp [hx])] at hc
          exact absurd hc (by simp)
        · rw [List.dropWhile_eq_nil_iff] at hc
          have hm2 : ']' ∈ (x :: b') ++ q := List.mem_append_left _ hmem
          have := hc ']' hm2
          simp at this
      · exact absurd h (by simp)

theorem limpio_de_tramo {xs p ys q : Chars} (h : Limpio xs) (he : xs = p ++ ys ++ q) :
    Limpio ys := by
  intro a b hd
  have : xs = (p ++ a) ++ '[' :: (b ++ q) := by
    rw [he, hd]
    simp
  exact tomaGrupo_none_append (h (p ++ a) (b ++ q) this)

theorem limpio_cola {c : Char} {t : Chars} (h : Limpio (c :: t)) : Limpio t := by
  intro a b hd
  exact h (c :: a) b (by rw [hd]; rfl)

theorem limpio_coincideEn {xs : Chars} (h : Limpio xs) : coincideEn xs = none := by
  unfold coincideEn
  cases hd : xs.dropWhile esWS with
  | nil => rfl
  | cons c t =>
    by_cases hc : c = '['
    · subst hc
      have hdec : xs = xs.takeWhile esWS ++ '[' :: t := by
        conv_lhs => rw [← List.takeWhile_append_dropWhile (p := esWS) (l := xs)]
        rw [hd]
      exact h _ _ hdec
    · cases c <;> simp_all

/-- On a `Limpio` string the scanner returns the string unchanged and finds
no groups. -/
theorem escaneaRefs_de_limpio {xs : Chars} (h : Limpio xs) :
    escaneaRefs xs = (xs, []) := by
  induction xs with
  | nil => rfl
  | cons c t ih =>
    rw [escaneaRefs_eq]
    rw [limpio_coincideEn h]
    dsimp only
    rw [ih (limpio_cola h)]

theorem mem_residuo_aux :
    ∀ n : Nat, ∀ cs : Chars, cs.length ≤ n → ∀ x ∈ (escaneaRefs cs).1, x ∈ cs := by
  intro n
  induction n with
  | zero =>
    intro cs h x hx
    have : cs = [] := List.length_eq_zero.mp (Nat.le_zero.mp h)
    subst this
    exact absurd hx (by simp [show escaneaRefs ([] : Chars) = ([], []) from rfl])
  | succ n ih =>
    intro cs hlen x hx
    rw [escaneaRefs_eq] at hx
    cases hb : coincideEn cs with
    | some q =>
      obtain ⟨m, r⟩ := q
      rw [hb] at hx
      dsimp only at hx
      have hlt := coincideEn_length hb
      have hx' := ih r (by omega) x hx
      -- r is a suffix of cs
      unfold coincideEn at hb
      cases hd : cs.dropWhile esWS with
      | nil => rw [hd] at hb; exact absurd hb (by simp)
      | cons c t =>
        rw [hd] at hb
        by_cases hc : c = '['
        · subst hc
          have hb' : tomaGrupo t = some (m, r) := hb
          have hdec := (tomaGrupo_eq_some hb').1
          have hxs : cs = cs.takeWhile esWS ++ '[' :: (m ++ ']' :: r) := by
            conv_lhs => rw [← List.takeWhile_append_dropWhile (p := esWS) (l := cs)]
            rw [hd, hdec]
          rw [hxs]
          simp [hx']
        · cases c <;> simp_all
    | none =>
      rw [hb] at hx
      cases cs with
      | nil => simp at hx
      | cons c t =>
        dsimp only at hx
        rcases List.mem_cons.mp hx with hx | hx
        · simp [hx]
        · have := ih t (by simp at hlen; omega) x hx
          simp [this]

theorem mem_residuo {cs : Chars} : ∀ x ∈ (escaneaRefs cs).1, x ∈ cs :=
  mem_residuo_aux cs.length cs le_rfl

theorem limpio_residuo_aux :
    ∀ n : Nat, ∀ cs : Chars, cs.length ≤ n → Limpio (escaneaRefs cs).1 := by
  intro n
  induction n with
  | zero =>
    intro cs h
    have : cs = [] := List.length_eq_zero.mp (Nat.le_zero.mp h)
    subst this
    intro a b hd
    exact absurd hd (by simp [show (escaneaRefs ([] : Chars)).1 = [] from rfl])
  | succ n ih =>
    intro cs hlen
    rw [escaneaRefs_eq]
    cases hb : coincideEn cs with
    | some q =>
      obtain ⟨m, r⟩ := q
      dsimp only
      have hlt := coincideEn_length hb
      exact ih r (by omega)
    | none =>
      cases cs with
      | nil => intro a b hd; exact absurd hd (by simp)
      | cons c t =>
        dsimp only
        have hclean : Limpio (escaneaRefs t).1 := ih t (by simp at hlen; omega)
        intro a b hd
        cases a with
        | cons a0 a' =>
          have : (escaneaRefs t).1 = a' ++ '[' :: b := by
            have := congrArg List.tail hd
            simpa using this
          exact hclean a' b this
        | nil =>
          simp only [List.nil_append, List.cons.injEq] at hd
          obtain ⟨hc, hres⟩ := hd
          subst hc
          -- coincideEn ('[' :: t) = none means tomaGrupo t = none
          have hg : tomaGrupo t = none := by
            unfold coincideEn at hb
            have hdw : ('[' :: t).dropWhile esWS = '[' :: t :=
              List.dropWhile_cons_of_neg (by decide)
            rw [hdw] at hb
            exact hb
          -- three ways tomaGrupo t can fail
          simp only [tomaGrupo] at hg
          split at hg
          · next hc =>
            rcases hc with hc | hc
            · -- t = [] or t starts with ']'
              cases t with
              | nil =>
                subst hres
                rw [show (escaneaRefs ([] : Chars)).1 = [] from rfl]
                exact tomaGrupo_nil
              | cons d t' =>
                by_cases hdd : d = ']'
                · subst hdd hres
                  rw [escaneaRefs_eq]
                  have : coincideEn (']' :: t') = none := by
                    unfold coincideEn
                    rw [List.dropWhile_cons_of_neg (by decide)]
                    rfl
                  rw [this]
                  exact tomaGrupo_cons_cierre _
                · rw [List.takeWhile_cons_of_pos (by simp [hdd])] at hc
                  exact absurd hc (by simp)
            · -- no ']' anywhere in t
              rw [List.dropWhile_eq_nil_iff] at hc
              have hnot : ']' ∉ t := by
                intro hm
                have := hc ']' (by simp [hm])
                simp at this
              subst hres
              apply tomaGrupo_sin_cierre
              intro hm
              exact hnot (mem_residuo ']' hm)
          · exact absurd hg (by simp)

theorem limpio_residuo (cs : Chars) : Limpio (escaneaRefs cs).1 :=
  limpio_residuo_aux cs.length cs le_rfl

theorem dropWhile_dropWhile (p : Char → Bool) (l : Chars) :
    (l.dropWhile p).dropWhile p = l.dropWhile p := by
  induction l with
  | nil => rfl
  | cons a t ih =>
    by_cases h : p a
    · rw [List.dropWhile_cons_of_pos h, ih]
    · rw [List.dropWhile_cons_of_neg h, List.dropWhile_cons_of_neg h]

theorem stripL_de_cabeza {l : Chars} (h : ∀ c, l.head? = some c → esWS c = false) :
    stripL l = l := by
  cases l with
  | nil => rfl
  | cons a t =>
    have := h a rfl
    exact List.dropWhile_cons_of_neg (by simp [this])

theorem stripR_prefijo (l : Chars) : ∃ v, l = stripR l ++ v := by
  refine ⟨(l.reverse.takeWhile esWS).reverse, ?_⟩
  unfold stripR
  rw [← List.reverse_append, List.takeWhile_append_dropWhile, List.reverse_reverse]

theorem stripR_stripR (l : Chars) : stripR (stripR l) = stripR l := by
  unfold stripR
  rw [List.reverse_reverse, dropWhile_dropWhile]

theorem pyStrip_decomp (l : Chars) : ∃ u v, l = u ++ pyStrip l ++ v := by
  obtain ⟨v, hv⟩ := stripR_prefijo (stripL l)
  refine ⟨l.takeWhile esWS, v, ?_⟩
  conv_lhs => rw [← List.takeWhile_append_dropWhile (p := esWS) (l := l)]
  unfold pyStrip
  rw [List.append_assoc, ← hv]
  rfl

theorem pyStrip_idem (l : Chars) : pyStrip (pyStrip l) = pyStrip l := by
  unfold pyStrip
  have h1 : stripL (stripR (stripL l)) = stripR (stripL l) := by
    apply stripL_de_cabeza
    intro c hc
    obtain ⟨v, hv⟩ := stripR_prefijo (stripL l)
    have hhead : (stripL l).head? = some c := by
      rw [hv]
      cases hsr : stripR (stripL l) with
      | nil => rw [hsr] at hc; exact absurd hc (by simp)
      | cons d t =>
        rw [hsr] at hc
        simpa using hc
    have h2 := List.head?_dropWhile_not esWS l
    unfold stripL at hhead
    rw [hhead] at h2
    simpa using h2
  rw [h1, stripR_stripR]

/-- C8: re-running the reference extractor on the residual it produced finds
no reference and leaves the residual unchanged — equivalently, every bracket
character still present in a residual belongs to an unmatched or malformed
group, never to a matchable `[...]` group. -/
theorem c8_residuo_sin_grupos (s : String) :
    extraer_referencias ((extraer_referencias s).1) = ((extraer_referencias s).1, []) := by
  by_cases hs : s = ""
  · subst hs
    rfl
  · rw [extraer_referencias_ne hs]
    set res := (escaneaRefs (pyStrip s.data)).1 with hres
    have h1 : (extraeCore s.data).1 = ⟨pyStrip res⟩ := rfl
    by_cases hR : (⟨pyStrip res⟩ : String) = ""
    · rw [h1, hR]
      rfl
    · rw [h1, extraer_referencias_ne hR]
      have hlim : Limpio (pyStrip res) := by
        obtain ⟨u, v, huv⟩ := pyStrip_decomp res
        exact limpio_de_tramo (limpio_residuo (pyStrip s.data)) huv
      show extraeCore (pyStrip res) = _
      simp only [extraeCore]
      rw [pyStrip_idem res, escaneaRefs_de_limpio hlim]
      simp [pyStrip_idem res]

/-! ## C9: round-trip stability

The spec asserts that stringifying a parsed pair back into the same textual
range format (`"minimum - maximum"` with decimal numerals) and parsing it
again yields the same pair.  The stringifier below is modelled from the
spec's words (the repository itself has no stringifier); the parser side is
the embedded `parsear_rango`. -/

/-- The character of a decimal digit. -/
def digitChar (d : Nat) : Char := Char.ofNat (48 + d)

/-- Fuelled most-significant-first digit expansion. -/
def natDigitsF : Nat → Nat → Chars
  | 0, _ => []
  | fuel + 1, n =>
    if n < 10 then [digitChar n]
    else natDigitsF fuel (n / 10) ++ [digitChar (n % 10)]

/-- Decimal digit string of a natural number. -/
def natDigits (n : Nat) : Chars := natDigitsF (n + 1) n

/-- Exactly `k` digits: the last `k` decimal digits of `n`, zero padded. -/
def digitsOfPadded : Nat → Nat → Chars
  | 0, _ => []
  | k + 1, n => digitsOfPadded k (n / 10) ++ [digitChar (n % 10)]

/-- Decimal rendering of a rational whose denominator divides a power of ten:
`q.den` fraction digits after the point (enough whenever
`q.den ∣ 10 ^ q.den`). -/
def renderQ (q : ℚ) : String :=
  let k := q.den
  let m := q.num.natAbs * 10 ^ k / q.den
  let digs := natDigits (m / 10 ^ k) ++ '.' :: digitsOfPadded k m
  ⟨if q.num < 0 then '-' :: digs else digs⟩

/-- A rational exactly renderable in decimal: the denominator divides the
power of ten used by `renderQ`. -/
def renderable (q : ℚ) : Prop := q.den ∣ 10 ^ q.den

instance (q : ℚ) : Decidable (renderable q) :=
  inferInstanceAs (Decidable (q.den ∣ 10 ^ q.den))

/-- Stringify a parsed pair back into the textual range format: two-sided
pairs as `"min - max"`, the wholly-null pair as the sentinel. -/
def formatRange : Option ℚ × Option ℚ → String
  | (some a, some b) => ⟨(renderQ a).data ++ ' ' :: '-' :: ' ' :: (renderQ b).data⟩
  | _ => "No establecido"

/-! ### Digit facts -/

theorem digitChar_toNat {d : Nat} (h : d < 10) : (digitChar d).toNat = 48 + d := by
  interval_cases d <;> decide

theorem mem_natDigitsF {fuel n : Nat} :
    ∀ c ∈ natDigitsF fuel n, ∃ d, d < 10 ∧ c = digitChar d := by
  induction fuel generalizing n with
  | zero => intro c hc; exact absurd hc (by simp [natDigitsF])
  | succ fuel ih =>
    intro c hc
    unfold natDigitsF at hc
    split at hc
    · next h =>
      simp only [List.mem_singleton] at hc
      exact ⟨n, h, hc⟩
    · rcases List.mem_append.mp hc with hc | hc
      · exact ih c hc
      · simp only [List.mem_singleton] at hc
        exact ⟨n % 10, Nat.mod_lt _ (by omega), hc⟩

theorem mem_digitsOfPadded {k n : Nat} :
    ∀ c ∈ digitsOfPadded k n, ∃ d, d < 10 ∧ c = digitChar d := by
  induction k generalizing n with
  | zero => intro c hc; exact absurd hc (by simp [digitsOfPadded])
  | succ k ih =>
    intro c hc
    unfold digitsOfPadded at hc
    rcases List.mem_append.mp hc with hc | hc
    · exact ih c hc
    · simp only [List.mem_singleton] at hc
      exact ⟨n % 10, Nat.mod_lt _ (by omega), hc⟩

theorem natDigitsF_ne_nil {fuel n : Nat} (h : 0 < fuel) : natDigitsF fuel n ≠ [] := by
  cases fuel with
  | zero => omega
  | succ fuel =>
    unfold natDigitsF
    split
    · simp
    · simp

theorem digitsOfPadded_length (k n : Nat) : (digitsOfPadded k n).length = k := by
  induction k generalizing n with
  | zero => rfl
  | succ k ih => simp [digitsOfPadded, ih]

/-- Numeric value below the digit fold, with an arbitrary accumulator. -/
theorem valNat_foldl (b : Chars) (i : Nat) :
    b.foldl (fun a c => 10 * a + (c.toNat - 48)) i = i * 10 ^ b.length + valNat b := by
  induction b generalizing i with
  | nil => simp [valNat]
  | cons c t ih =>
    rw [List.foldl_cons, ih]
    have h2 : valNat (c :: t) = (c.toNat - 48) * 10 ^ t.length + valNat t := by
      unfold valNat
      rw [List.foldl_cons, ih (10 * 0 + (c.toNat - 48))]
      ring_nf
      rfl
    rw [h2, List.length_cons, Nat.pow_succ]
    ring

theorem valNat_append (a b : Chars) :
    valNat (a ++ b) = valNat a * 10 ^ b.length + valNat b := by
  unfold valNat
  rw [List.foldl_append]
  exact valNat_foldl b _

theorem valNat_digitChar {d : Nat} (h : d < 10) : valNat [digitChar d] = d := by
  unfold valNat
  simp [digitChar_toNat h]

theorem valNat_natDigitsF {fuel n : Nat} (h : n < fuel) : valNat (natDigitsF fuel n) = n := by
  induction fuel generalizing n with
  | zero => omega
  | succ fuel ih =>
    unfold natDigitsF
    split
    · next h10 => exact valNat_digitChar h10
    · next h10 =>
      rw [valNat_append, valNat_digitChar (Nat.mod_lt _ (by omega))]
      rw [ih (by omega : n / 10 < fuel)]
      simp
      omega

theorem valNat_natDigits (n : Nat) : valNat (natDigits n) = n :=
  valNat_natDigitsF (Nat.lt_succ_self n)

theorem valNat_digitsOfPadded (k n : Nat) : valNat (digitsOfPadded k n) = n % 10 ^ k := by
  induction k generalizing n with
  | zero => simp [digitsOfPadded, valNat, Nat.mod_one]
  | succ k ih =>
    unfold digitsOfPadded
    rw [valNat_append, valNat_digitChar (Nat.mod_lt _ (by omega)), ih]
    have h1 : n % 10 ^ (k + 1) = 10 * (n / 10 % 10 ^ k) + n % 10 := by
      have hsplit : n = (10 ^ k * 10) * (n / 10 / 10 ^ k) + (10 * (n / 10 % 10 ^ k) + n % 10) := by
        conv_lhs => rw [← Nat.div_add_mod n 10]
        conv_lhs => rw [← Nat.div_add_mod (n / 10) (10 ^ k)]
        ring
      rw [Nat.pow_succ]
      conv_lhs => rw [hsplit]
      rw [Nat.mul_add_mod]
      refine Nat.mod_eq_of_lt ?_
      have h2 := Nat.mod_lt (n / 10) (show 0 < 10 ^ k by positivity)
      have h3 := Nat.mod_lt n (show 0 < 10 by omega)
      omega
    rw [h1]
    simp [digitsOfPadded_length]
    omega

/-! ### Character sets of rendered numerals -/

/-- Characters that occur in a rendered numeral. -/
def esSeguro (c : Char) : Prop :=
  c = '-' ∨ c = '.' ∨ ∃ d, d < 10 ∧ c = digitChar d

theorem esSeguro_rango {c : Char} (h : esSeguro c) :
    45 ≤ c.toNat ∧ c.toNat ≤ 57 := by
  rcases h with h | h | ⟨d, hd, h⟩ <;> subst h
  · decide
  · decide
  · rw [digitChar_toNat hd]
    omega

theorem esWS_falso {c : Char} (h : 45 ≤ c.toNat) : esWS c = false := by
  unfold esWS
  have h1 : c ≠ ' ' := fun he => by rw [he] at h; exact absurd h (by decide)
  have h2 : c ≠ '\t' := fun he => by rw [he] at h; exact absurd h (by decide)
  have h3 : c ≠ '\n' := fun he => by rw [he] at h; exact absurd h (by decide)
  have h4 : c ≠ '\r' := fun he => by rw [he] at h; exact absurd h (by decide)
  simp [h1, h2, h3, h4]

theorem minuscula_id {c : Char} (h : c.toNat ≤ 64) : minuscula c = c := by
  unfold minuscula
  rw [if_neg]
  omega

/-- `dropWhile` is the identity when no element satisfies the predicate. -/
theorem dropWhile_sin {p : Char → Bool} {l : Chars}
    (h : ∀ c ∈ l, p c = false) : l.dropWhile p = l := by
  cases l with
  | nil => rfl
  | cons a t => exact List.dropWhile_cons_of_neg (by simp [h a (by simp)])

/-- `takeWhile` is the identity when every element satisfies the predicate. -/
theorem takeWhile_todo {p : Char → Bool} {l : Chars}
    (h : ∀ c ∈ l, p c = true) : l.takeWhile p = l := by
  induction l with
  | nil => rfl
  | cons a t ih =>
    rw [List.takeWhile_cons_of_pos (h a (by simp))]
    rw [ih (fun c hc => h c (by simp [hc]))]

theorem pyStrip_sin_ws {l : Chars} (h : ∀ c ∈ l, esWS c = false) : pyStrip l = l := by
  unfold pyStrip stripL stripR
  rw [dropWhile_sin h, dropWhile_sin (fun c hc => h c (List.mem_reverse.mp hc)),
    List.reverse_reverse]

theorem pyLower_id {l : Chars} (h : ∀ c ∈ l, c.toNat ≤ 64) : pyLower l = l := by
  unfold pyLower
  conv_rhs => rw [← List.map_id l]
  apply List.map_congr_left
  intro c hc
  exact minuscula_id (h c hc)

/-- Every character of a rendered numeral is safe. -/
theorem renderQ_seguro (q : ℚ) : ∀ c ∈ (renderQ q).data, esSeguro c := by
  intro c hc
  simp only [renderQ] at hc
  have hdigs : ∀ x ∈ natDigits (q.num.natAbs * 10 ^ q.den / q.den / 10 ^ q.den) ++
      '.' :: digitsOfPadded q.den (q.num.natAbs * 10 ^ q.den / q.den), esSeguro x := by
    intro x hx
    rcases List.mem_append.mp hx with hx | hx
    · obtain ⟨d, hd, he⟩ := mem_natDigitsF x hx
      exact Or.inr (Or.inr ⟨d, hd, he⟩)
    · rcases List.mem_cons.mp hx with hx | hx
      · exact Or.inr (Or.inl hx)
      · obtain ⟨d, hd, he⟩ := mem_digitsOfPadded x hx
        exact Or.inr (Or.inr ⟨d, hd, he⟩)
  split at hc
  · rcases List.mem_cons.mp hc with hc | hc
    · exact Or.inl hc
    · exact hdigs c hc
  · exact hdigs c hc

theorem renderQ_ne_nil (q : ℚ) : (renderQ q).data ≠ [] := by
  simp only [renderQ]
  split
  · simp
  · intro h
    exact natDigitsF_ne_nil (Nat.succ_pos _) (List.append_eq_nil.mp h).1

/-! ### Substring and split facts -/

theorem esSub_iff {pat hay : Chars} :
    esSub pat hay = true ↔ ∃ u w, hay = u ++ pat ++ w := by
  induction hay with
  | nil =>
    cases pat with
    | nil => simp [esSub]
    | cons p ps =>
      simp only [esSub, List.isEmpty_cons]
      constructor
      · intro h; exact absurd h (by simp)
      · rintro ⟨u, w, hw⟩
        exact absurd hw.symm (by simp)
  | cons c t ih =>
    simp only [esSub, Bool.or_eq_true]
    constructor
    · rintro (h | h)
      · obtain ⟨w, hw⟩ := List.isPrefixOf_iff_prefix.mp h
        exact ⟨[], w, by rw [← hw]; simp⟩
      · obtain ⟨u, w, hw⟩ := ih.mp h
        exact ⟨c :: u, w, by rw [hw]; rfl⟩
    · rintro ⟨u, w, hw⟩
      cases u with
      | nil =>
        left
        simp only [List.nil_append] at hw
        exact List.isPrefixOf_iff_prefix.mpr ⟨w, hw.symm⟩
      | cons u0 u' =>
        right
        apply ih.mpr
        refine ⟨u', w, ?_⟩
        have := congrArg List.tail hw
        simpa using this

theorem esSub_mem {pat hay : Chars} (h : esSub pat hay = true) :
    ∀ c ∈ pat, c ∈ hay := by
  obtain ⟨u, w, hw⟩ := esSub_iff.mp h
  intro c hc
  rw [hw]
  simp [hc]

theorem esSub_falso {pat hay : Chars} (x : Char) (h1 : x ∈ pat) (h2 : x ∉ hay) :
    esSub pat hay = false := by
  by_contra h
  have := esSub_mem (by simpa using h) x h1
  exact h2 this

theorem isPrefixOf_cons_falso {p a : Char} (ps t : Chars) (h : p ≠ a) :
    ((p :: ps).isPrefixOf (a :: t)) = false := by
  simp [List.isPrefixOf, h]

theorem buscaSub_ausente {p : Char} {ps B : Chars} (hB : p ∉ B) :
    buscaSub p ps B = none := by
  induction B with
  | nil => rfl
  | cons b B' ih =>
    unfold buscaSub
    rw [isPrefixOf_cons_falso _ _ (by intro he; exact hB (by simp [he]))]
    rw [if_neg (by simp)]
    rw [ih (fun hm => hB (by simp [hm]))]
    rfl

theorem buscaSub_union {p : Char} {ps A B : Chars} (hA : p ∉ A) :
    buscaSub p ps (A ++ (p :: ps) ++ B) = some (A, B) := by
  induction A with
  | nil =>
    have hpre : ((p :: ps).isPrefixOf (p :: (ps ++ B))) = true :=
      List.isPrefixOf_iff_prefix.mpr ⟨B, by simp⟩
    rw [show ([] : Chars) ++ (p :: ps) ++ B = p :: (ps ++ B) by simp]
    simp only [buscaSub]
    rw [if_pos hpre]
    have hdrop : (p :: (ps ++ B)).drop (ps.length + 1) = B := by
      rw [List.drop_succ_cons, List.drop_left]
    rw [hdrop]
  | cons a A' ih =>
    have ha : p ≠ a := fun he => hA (by simp [he])
    rw [show (a :: A') ++ (p :: ps) ++ B = a :: (A' ++ (p :: ps) ++ B) by simp]
    simp only [buscaSub]
    rw [isPrefixOf_cons_falso _ _ ha]
    rw [if_neg (by simp)]
    rw [ih (fun hm => hA (by simp [hm]))]
    rfl

theorem divideSub_union {p : Char} {ps A B : Chars} (hA : p ∉ A) (hB : p ∉ B) :
    divideSub p ps (A ++ (p :: ps) ++ B) = [A, B] := by
  rw [divideSub_eq, buscaSub_union hA]
  dsimp only
  rw [divideSub_eq, buscaSub_ausente hB]

theorem reemplaza_ausente {p : Char} {ps rep cs : Chars} (h : p ∉ cs) :
    reemplaza p ps rep cs = cs := by
  rw [reemplaza_eq, buscaSub_ausente h]

/-! ### The float parser is correct on rendered numerals -/

theorem esDig_digitChar {d : Nat} (h : d < 10) : esDig (digitChar d) = true := by
  simp only [esDig, digitChar_toNat h]
  simp
  omega

theorem esDig_natDigits (n : Nat) : ∀ c ∈ natDigits n, esDig c = true := by
  intro c hc
  obtain ⟨d, hd, he⟩ := mem_natDigitsF c hc
  exact he ▸ esDig_digitChar hd

theorem esDig_digitsOfPadded (k n : Nat) : ∀ c ∈ digitsOfPadded k n, esDig c = true := by
  intro c hc
  obtain ⟨d, hd, he⟩ := mem_digitsOfPadded c hc
  exact he ▸ esDig_digitChar hd

theorem pyFloatMag_digs (n₁ k m : Nat) (sgn : ℤ) :
    pyFloatMag (natDigits n₁ ++ '.' :: digitsOfPadded k m) sgn =
      some (valDecimal sgn (natDigits n₁) (digitsOfPadded k m) 0) := by
  have hdot : ¬ esDig '.' = true := by decide
  simp only [pyFloatMag]
  rw [List.takeWhile_append_of_pos (esDig_natDigits n₁),
    List.takeWhile_cons_of_neg hdot, List.append_nil]
  rw [List.dropWhile_append_of_pos (esDig_natDigits n₁),
    List.dropWhile_cons_of_neg hdot]
  dsimp only
  rw [if_pos rfl]
  rw [takeWhile_todo (esDig_digitsOfPadded k m)]
  rw [show (digitsOfPadded k m).dropWhile esDig = [] from
    List.dropWhile_eq_nil_iff.mpr (fun x hx => by simp [esDig_digitsOfPadded k m x hx])]
  rw [if_neg (by
    intro hc
    exact natDigitsF_ne_nil (Nat.succ_pos _) hc.1)]

theorem valDecimal_eq (q : ℚ) (h : renderable q) :
    valDecimal (if q.num < 0 then -1 else 1)
      (natDigits (q.num.natAbs * 10 ^ q.den / q.den / 10 ^ q.den))
      (digitsOfPadded q.den (q.num.natAbs * 10 ^ q.den / q.den)) 0 = q := by
  have hden0 : (q.den : ℚ) ≠ 0 := by
    exact_mod_cast q.den_nz
  have hpow0 : ((10 : ℚ)) ^ q.den ≠ 0 := by positivity
  have keyNat : q.num.natAbs * 10 ^ q.den / q.den * q.den = q.num.natAbs * 10 ^ q.den :=
    Nat.div_mul_cancel (Dvd.dvd.mul_left h q.num.natAbs)
  have key : ((q.num.natAbs * 10 ^ q.den / q.den : ℕ) : ℚ) * (q.den : ℚ) =
      (q.num.natAbs : ℚ) * 10 ^ q.den := by
    exact_mod_cast congrArg (Nat.cast : ℕ → ℚ) keyNat
  set m := q.num.natAbs * 10 ^ q.den / q.den with hm
  have hmm : (m / 10 ^ q.den) * 10 ^ q.den + m % 10 ^ q.den = m := by
    rw [Nat.mul_comm]
    exact Nat.div_add_mod m (10 ^ q.den)
  unfold valDecimal
  rw [if_pos (le_refl (0 : ℤ))]
  rw [valNat_natDigits, valNat_digitsOfPadded, digitsOfPadded_length]
  have hcast : ((m / 10 ^ q.den : ℕ) : ℤ) * 10 ^ q.den + ((m % 10 ^ q.den : ℕ) : ℤ) =
      (m : ℤ) := by
    exact_mod_cast congrArg (Nat.cast : ℕ → ℤ) hmm
  rw [hcast]
  rw [show ((0 : ℤ)).toNat = 0 from rfl, pow_zero, mul_one]
  rw [Rat.mkRat_eq_div]
  conv_rhs => rw [← Rat.num_div_den q]
  push_cast
  rw [div_eq_div_iff (by exact_mod_cast hpow0) hden0]
  by_cases hneg : q.num < 0
  · rw [if_pos hneg]
    have hq0 : (q.num : ℚ) < 0 := by exact_mod_cast hneg
    have hn : (q.num.natAbs : ℚ) = -(q.num : ℚ) := by
      rw [Int.cast_natAbs]
      exact_mod_cast abs_of_neg hneg
    push_cast
    linear_combination (-1 : ℚ) * key - (10 : ℚ) ^ q.den * hn
  · rw [if_neg hneg]
    have hq0 : (0 : ℚ) ≤ (q.num : ℚ) := by exact_mod_cast not_lt.mp hneg
    have hn : (q.num.natAbs : ℚ) = (q.num : ℚ) := by
      rw [Int.cast_natAbs]
      exact_mod_cast abs_of_nonneg (not_lt.mp hneg)
    push_cast
    linear_combination key + (10 : ℚ) ^ q.den * hn

theorem pyFloat_renderQ {q : ℚ} (h : renderable q) :
    pyFloat (renderQ q).data = some q := by
  have hstrip : pyStrip (renderQ q).data = (renderQ q).data :=
    pyStrip_sin_ws (fun c hc => esWS_falso (esSeguro_rango (renderQ_seguro q c hc)).1)
  simp only [pyFloat]
  rw [hstrip]
  by_cases hneg : q.num < 0
  · have hdata : (renderQ q).data =
        '-' :: (natDigits (q.num.natAbs * 10 ^ q.den / q.den / 10 ^ q.den) ++
          '.' :: digitsOfPadded q.den (q.num.natAbs * 10 ^ q.den / q.den)) := by
      simp only [renderQ]
      rw [if_pos hneg]
    rw [hdata]
    dsimp only
    rw [if_pos rfl]
    rw [pyFloatMag_digs]
    have := valDecimal_eq q h
    rw [if_pos hneg] at this
    rw [this]
  · have hdata : (renderQ q).data =
        natDigits (q.num.natAbs * 10 ^ q.den / q.den / 10 ^ q.den) ++
          '.' :: digitsOfPadded q.den (q.num.natAbs * 10 ^ q.den / q.den) := by
      simp only [renderQ]
      rw [if_neg hneg]
    have hnn : natDigits (q.num.natAbs * 10 ^ q.den / q.den / 10 ^ q.den) ≠ [] :=
      natDigitsF_ne_nil (Nat.succ_pos _)
    obtain ⟨c0, t0, hc0⟩ := List.exists_cons_of_ne_nil hnn
    have hc0mem : c0 ∈ natDigits (q.num.natAbs * 10 ^ q.den / q.den / 10 ^ q.den) := by
      rw [show natDigits (q.num.natAbs * 10 ^ q.den / q.den / 10 ^ q.den) = c0 :: t0 from hc0]
      simp
    obtain ⟨d, hd, hcd⟩ := mem_natDigitsF c0 hc0mem
    have htn : c0.toNat = 48 + d := by rw [hcd]; exact digitChar_toNat hd
    have hne1 : c0 ≠ '-' := by
      intro he
      rw [he] at htn
      have : ('-').toNat = 45 := rfl
      omega
    have hne2 : c0 ≠ '+' := by
      intro he
      rw [he] at htn
      have : ('+').toNat = 43 := rfl
      omega
    rw [hdata, hc0, List.cons_append]
    dsimp only
    rw [if_neg hne1, if_neg hne2]
    rw [← List.cons_append, ← hc0]
    rw [pyFloatMag_digs]
    have := valDecimal_eq q h
    rw [if_neg hneg] at this
    rw [this]

/-! ### Assembly of the round trip -/

theorem aplicaCaso_id {v : Chars} {cr : Chars × Chars}
    (h : esSub cr.1 (pyLower v) = false) : aplicaCaso v cr = v := by
  unfold aplicaCaso
  rw [if_neg (by simp [h])]

theorem foldl_aplicaCaso_id {v : Chars} :
    ∀ l : List (Chars × Chars), (∀ cr ∈ l, esSub cr.1 (pyLower v) = false) →
      l.foldl aplicaCaso v = v := by
  intro l
  induction l with
  | nil => intro _; rfl
  | cons cr t ih =>
    intro h
    rw [List.foldl_cons, aplicaCaso_id (h cr (by simp))]
    exact ih (fun x hx => h x (by simp [hx]))

theorem stripR_cola_sin_ws {X B : Chars} (hB : ∀ c ∈ B, esWS c = false) (hne : B ≠ []) :
    stripR (X ++ B) = X ++ B := by
  unfold stripR
  rw [List.reverse_append]
  have hrne : B.reverse ≠ [] := by simpa using hne
  obtain ⟨y, ys, hy⟩ := List.exists_cons_of_ne_nil hrne
  have hyB : y ∈ B := by
    rw [← List.mem_reverse, hy]
    simp
  rw [hy, List.cons_append, List.dropWhile_cons_of_neg (by simp [hB y hyB])]
  rw [← List.cons_append, ← hy, ← List.reverse_append, List.reverse_reverse]

/-- C9: round-trip stability.  Stringifying a parsed pair back through the
textual range format and parsing again is the identity: every two-sided pair
of decimal rationals survives the round trip, and so does the wholly-null
pair via the sentinel. -/
theorem c9_ida_y_vuelta :
    (∀ a b : ℚ, renderable a → renderable b →
      parsear_rango (formatRange (some a, some b)) = (some a, some b)) ∧
    parsear_rango (formatRange ((none : Option ℚ), (none : Option ℚ))) = (none, none) := by
  constructor
  · intro a b ha hb
    set A := (renderQ a).data with hA
    set B := (renderQ b).data with hB
    have hsegA : ∀ c ∈ A, esSeguro c := renderQ_seguro a
    have hsegB : ∀ c ∈ B, esSeguro c := renderQ_seguro b
    have hAne : A ≠ [] := renderQ_ne_nil a
    have hBne : B ≠ [] := renderQ_ne_nil b
    set v := A ++ sepPad ++ B with hv
    have hfmt : formatRange (some a, some b) = ⟨v⟩ := by
      simp only [formatRange, hv, sepPad]
      congr 1
      simp
    have hvmem : ∀ c ∈ v, c.toNat = 32 ∨ (45 ≤ c.toNat ∧ c.toNat ≤ 57) := by
      intro c hc
      rw [hv] at hc
      rcases List.mem_append.mp hc with hc | hc
      · rcases List.mem_append.mp hc with hc | hc
        · exact Or.inr (esSeguro_rango (hsegA c hc))
        · have : c = ' ' ∨ c = '-' ∨ c = ' ' := by
            simpa [sepPad] using hc
          rcases this with rfl | rfl | rfl
          · exact Or.inl rfl
          · exact Or.inr (by decide)
          · exact Or.inl rfl
      · exact Or.inr (esSeguro_rango (hsegB c hc))
    have hno_letra : ∀ x : Char, 58 ≤ x.toNat → x ∉ v := by
      intro x hx hm
      rcases hvmem x hm with h32 | ⟨h45, h57⟩ <;> omega
    have hvne : (⟨v⟩ : String) ≠ "" := by
      intro he
      have hd : v = [] := by
        have := congrArg String.data he
        simpa using this
      rw [hv] at hd
      exact hAne (List.append_eq_nil.mp (List.append_eq_nil.mp hd).1).1
    have hvne2 : (⟨v⟩ : String) ≠ "No establecidos" := by
      intro he
      have hd : v = "No establecidos".data := by
        have := congrArg String.data he
        simpa using this
      exact hno_letra 'N' (by decide) (by rw [hd]; decide)
    have hvne3 : (⟨v⟩ : String) ≠ "No establecido" := by
      intro he
      have hd : v = "No establecido".data := by
        have := congrArg String.data he
        simpa using this
      exact hno_letra 'N' (by decide) (by rw [hd]; decide)
    rw [hfmt]
    unfold parsear_rango
    rw [if_neg (by push_neg; exact ⟨hvne, hvne2, hvne3⟩)]
    show trasCasos (aplicaCasos (pyStrip v)) = (some a, some b)
    have hstrip : pyStrip v = v := by
      unfold pyStrip
      have hL : stripL v = v := by
        obtain ⟨a0, A', hA'⟩ := List.exists_cons_of_ne_nil hAne
        have ha0 : a0 ∈ A := by rw [hA']; simp
        rw [hv, hA']
        simp only [List.cons_append]
        exact List.dropWhile_cons_of_neg
          (by simp [esWS_falso (esSeguro_rango (hsegA a0 ha0)).1])
      rw [hL, hv]
      exact stripR_cola_sin_ws
        (fun c hc => esWS_falso (esSeguro_rango (hsegB c hc)).1) hBne
    have hlow : pyLower v = v := pyLower_id (fun c hc => by
      rcases hvmem c hc with h | ⟨h1, h2⟩ <;> omega)
    have hcasos : aplicaCasos v = v := by
      unfold aplicaCasos
      apply foldl_aplicaCaso_id
      intro cr hcr
      rw [hlow]
      fin_cases hcr
      · exact esSub_falso 'm' (by decide) (hno_letra 'm' (by decide))
      · exact esSub_falso 'm' (by decide) (hno_letra 'm' (by decide))
      · exact esSub_falso 'e' (by decide) (hno_letra 'e' (by decide))
      · exact esSub_falso 'f' (by decide) (hno_letra 'f' (by decide))
      · exact esSub_falso 'f' (by decide) (hno_letra 'f' (by decide))
      · exact esSub_falso 'b' (by decide) (hno_letra 'b' (by decide))
      · exact esSub_falso 'd' (by decide) (hno_letra 'd' (by decide))
      · exact esSub_falso 'd' (by decide) (hno_letra 'd' (by decide))
      · exact esSub_falso 'm' (by decide) (hno_letra 'm' (by decide))
    rw [hstrip, hcasos]
    unfold trasCasos
    have hspA : ' ' ∉ A := fun hm => by
      have h1 := (esSeguro_rango (hsegA _ hm)).1
      have h32 : (' ' : Char).toNat = 32 := rfl
      omega
    have hspB : ' ' ∉ B := fun hm => by
      have h1 := (esSeguro_rango (hsegB _ hm)).1
      have h32 : (' ' : Char).toNat = 32 := rfl
      omega
    have hsep : esSub sepPad v = true := esSub_iff.mpr ⟨A, B, hv⟩
    have hparts : partesDe v = some [A, B] := by
      unfold partesDe
      rw [if_pos hsep]
      have hdv : divideSub ' ' ['-', ' '] v = [A, B] := by
        rw [hv]
        exact divideSub_union hspA hspB
      rw [hdv]
    rw [hparts]
    dsimp only
    have hlado : ∀ (X : Chars) (q : ℚ), (∀ c ∈ X, esSeguro c) → renderable q →
        X = (renderQ q).data → procesaLado X = some q := by
      intro X q hseg hq hXq
      have hstripX : pyStrip X = X :=
        pyStrip_sin_ws (fun c hc => esWS_falso (esSeguro_rango (hseg c hc)).1)
      have hlowX : pyLower X = X := pyLower_id (fun c hc => by
        have h2 := (esSeguro_rango (hseg c hc)).2
        omega)
      have hXne : X ≠ [] := by rw [hXq]; exact renderQ_ne_nil q
      simp only [procesaLado]
      rw [hstripX]
      rw [if_neg (by
        rintro (hsub | hnil)
        · rw [hlowX] at hsub
          have hnmem := esSub_mem hsub 'n' (by decide)
          have h1 := (esSeguro_rango (hseg _ hnmem)).2
          have h110 : ('n' : Char).toNat = 110 := rfl
          omega
        · exact hXne hnil)]
      have hcoma : ',' ∉ X := fun hm => by
        have h1 := (esSeguro_rango (hseg _ hm)).1
        have h44 : (',' : Char).toNat = 44 := rfl
        omega
      rw [reemplaza_ausente hcoma, hXq]
      exact pyFloat_renderQ hq
    have hladoA := hlado A a hsegA ha hA
    have hladoB := hlado B b hsegB hb hB
    unfold dosLados
    rw [hladoA, hladoB]
  · decide

/-- Witness for C9 at the pair `(180, 3000)`. -/
theorem c9_ida_y_vuelta_testigo :
    renderable (mkRat 180 1) ∧ renderable (mkRat 3000 1) ∧
    parsear_rango (formatRange (some (mkRat 180 1), some (mkRat 3000 1))) =
      (some (mkRat 180 1), some (mkRat 3000 1)) :=
  ⟨by decide, by decide, c9_ida_y_vuelta.1 _ _ (by decide) (by decide)⟩

end Suplementos
